import Mathlib

/-!
Verification of the nansen-cli command-line client (src/src/cli.js) against its
natural-language specification.

The JavaScript source is shallowly embedded: JS values are modelled by the
inductive type JSVal, JS objects as association lists in insertion order, and
fallible code (code that can throw a TypeError) by Except.  Functions keep the
names of the source functions they embed.

JS numbers are modelled by exact decimal fractions (integer mantissa over a
power of ten, kept in lowest terms), which represent every numeric literal the
claims exercise exactly; NaN is a separate constructor of JSVal.  On such
values the IEEE-754 doubles of the source behave exactly, so the embedding is
faithful on them.
-/

/-- An exact decimal number `m / 10 ^ e`.  Values are kept normalized
(`e` minimal), so structural equality coincides with numeric equality. -/
structure DecNum where
  m : ℤ
  e : ℕ
deriving DecidableEq, Repr

/-- Normalize by stripping factors of ten shared between mantissa and
denominator. -/
def decNorm : ℤ → ℕ → DecNum
  | m, 0 => ⟨m, 0⟩
  | m, e + 1 => if m % 10 = 0 then decNorm (m / 10) e else ⟨m, e + 1⟩

/-- The integer `n` as a decimal number. -/
def decOfInt (n : ℤ) : DecNum := ⟨n, 0⟩

/-- Numeric comparison `a ≤ b`. -/
def decLe (a b : DecNum) : Bool := a.m * 10 ^ b.e ≤ b.m * 10 ^ a.e

/-- Numeric comparison `a < b`. -/
def decLt (a b : DecNum) : Bool := a.m * 10 ^ b.e < b.m * 10 ^ a.e

/-- `|a| ≥ n` for an integer bound `n`, as in `Math.abs(val) >= n`. -/
def decAbsGe (a : DecNum) (n : ℤ) : Bool := n * 10 ^ a.e ≤ |a.m|

/-- Division by `10 ^ k` (exact; used for the `/ 1000000` and `/ 1000` of
`formatValue`). -/
def decDivPow10 (a : DecNum) (k : ℕ) : DecNum := decNorm a.m (a.e + k)

/-- `Number.isInteger` on a normalized decimal. -/
def decIsInt (a : DecNum) : Bool := a.e = 0

example : decNorm 1500 3 = ⟨15, 1⟩ := rfl
example : decDivPow10 ⟨1500000, 0⟩ 6 = ⟨15, 1⟩ := rfl
example : decAbsGe ⟨-1500, 0⟩ 1000 = true := rfl
example : decAbsGe ⟨314159, 5⟩ 1000 = false := rfl

/-- A JavaScript value.  Objects are association lists of own enumerable
properties in insertion order; `undefined` and `NaN` are explicit
constructors. -/
inductive JSVal where
  | vNull : JSVal
  | vUndef : JSVal
  | vNaN : JSVal
  | vBool : Bool → JSVal
  | vNum : DecNum → JSVal
  | vStr : String → JSVal
  | vArr : List JSVal → JSVal
  | vObj : List (String × JSVal) → JSVal

open JSVal

/-- The integer `n` as a JS number value. -/
def vInt (n : ℤ) : JSVal := vNum ⟨n, 0⟩

/-- JS truthiness: null, undefined, NaN, false, 0 and the empty string are
falsy; every other value is truthy. -/
def jsTruthy : JSVal → Bool
  | vNull => false
  | vUndef => false
  | vNaN => false
  | vBool b => b
  | vNum q => if q.m = 0 then false else true
  | vStr s => if s = "" then false else true
  | vArr _ => true
  | vObj _ => true

/-- The JS expression `a || b`. -/
def jsOr (a b : JSVal) : JSVal := if jsTruthy a then a else b

/-- Property read on an association list; a missing key yields `undefined`,
as JS property access does. -/
def objGet (m : List (String × JSVal)) (k : String) : JSVal :=
  match m.lookup k with
  | some v => v
  | none => vUndef

/-- JS property assignment on an association list: an existing key keeps its
position and gets the new value, a new key is appended (JS own-property
insertion order). -/
def setKey (m : List (String × JSVal)) (k : String) (v : JSVal) :
    List (String × JSVal) :=
  if (m.lookup k).isSome then
    m.map (fun kv => if kv.1 = k then (k, v) else kv)
  else
    m ++ [(k, v)]

example : objGet [("a", vInt 1)] "a" = vInt 1 := rfl
example : objGet [("a", vInt 1)] "b" = vUndef := rfl
example : setKey [("a", vInt 1)] "a" (vInt 2) = [("a", vInt 2)] := rfl
example : setKey [("a", vInt 1)] "b" (vInt 2) = [("a", vInt 1), ("b", vInt 2)] := rfl

/-!  Number rendering.  `toFixed(2)` is modelled with the rounding ECMA-262
prescribes for `Number.prototype.toFixed`: the sign is split off and ties
round to the larger magnitude. -/

/-- Pad a digit string with leading zeros up to width `w`. -/
def padZeros (s : String) (w : Nat) : String :=
  String.mk (List.replicate (w - s.length) '0') ++ s

/-- `x.toFixed(2)` on an exact decimal. -/
def jsToFixed2 (q : DecNum) : String :=
  let sgn := if q.m < 0 then "-" else ""
  let am : ℕ := q.m.natAbs
  let scaled : ℕ := (am * 200 + 10 ^ q.e) / (2 * 10 ^ q.e)
  let ip := scaled / 100
  let fp := scaled % 100
  sgn ++ ip.repr ++ "." ++ padZeros fp.repr 2

example : jsToFixed2 ⟨15, 1⟩ = "1.50" := rfl
example : jsToFixed2 ⟨-15, 1⟩ = "-1.50" := rfl
example : jsToFixed2 ⟨314159, 5⟩ = "3.14" := rfl
example : jsToFixed2 ⟨0, 0⟩ = "0.00" := rfl
example : jsToFixed2 ⟨-2, 0⟩ = "-2.00" := rfl

/-- JS `String(number)` (resp. `JSON.stringify` of a number): the shortest
exact decimal form, which on the normalized representation is the mantissa
digits with the decimal point placed by the exponent. -/
def jsNumRepr (q : DecNum) : String :=
  if q.e = 0 then q.m.repr
  else
    let sgn := if q.m < 0 then "-" else ""
    let am : ℕ := q.m.natAbs
    sgn ++ (am / 10 ^ q.e).repr ++ "." ++ padZeros (am % 10 ^ q.e).repr q.e

example : jsNumRepr ⟨15, 1⟩ = "1.5" := rfl
example : jsNumRepr ⟨42, 0⟩ = "42" := rfl
example : jsNumRepr ⟨-21, 1⟩ = "-2.1" := rfl
example : jsNumRepr ⟨105, 2⟩ = "1.05" := rfl

/-- Hex digit for `\u00XX` escapes. -/
def hexDigit (n : Nat) : Char :=
  if n < 10 then Char.ofNat (48 + n) else Char.ofNat (87 + (n - 10))

/-- JSON string escaping as performed by `JSON.stringify`. -/
def jsonEscapeChar (c : Char) : String :=
  if c = '"' then "\\\""
  else if c = '\\' then "\\\\"
  else if c = '\n' then "\\n"
  else if c = '\r' then "\\r"
  else if c = '\t' then "\\t"
  else if c = '\x08' then "\\b"
  else if c = '\x0c' then "\\f"
  else if c.toNat < 32 then
    "\\u00" ++ String.mk [hexDigit (c.toNat / 16), hexDigit (c.toNat % 16)]
  else String.singleton c

/-- A JSON-quoted string literal. -/
def jsonQuote (s : String) : String :=
  "\"" ++ s.data.foldl (fun acc c => acc ++ jsonEscapeChar c) "" ++ "\""

/-- `JSON.stringify(v)` (compact form, no spacing).  `undefined` inside an
object drops the property, inside an array it prints as `null` (a top-level
`undefined`, on which the source never calls it, is rendered `null`); `NaN`
prints as `null`. -/
def jsonStringify : JSVal → String
  | vNull => "null"
  | vUndef => "null"
  | vNaN => "null"
  | vBool b => if b then "true" else "false"
  | vNum q => jsNumRepr q
  | vStr s => jsonQuote s
  | vArr xs =>
      "[" ++ String.intercalate ","
        (xs.attach.map (fun x => jsonStringify x.1)) ++ "]"
  | vObj fs =>
      "\x7b" ++ String.intercalate ","
        (fs.attach.filterMap (fun f =>
          match hf : f.1 with
          | (_, vUndef) => none
          | (k, v) => some (jsonQuote k ++ ":" ++ jsonStringify v))) ++ "\x7d"
decreasing_by
  · have := List.sizeOf_lt_of_mem x.2
    simp only [JSVal.vArr.sizeOf_spec]
    omega
  · have hm := f.2
    rw [hf] at hm
    have := List.sizeOf_lt_of_mem hm
    simp only [JSVal.vObj.sizeOf_spec, Prod.mk.sizeOf_spec] at this ⊢
    omega

/-- `formatValue` from src/src/cli.js lines 44-54: format a single value for
table display. -/
def formatValue : JSVal → String
  | vNull => ""
  | vUndef => ""
  | vNaN => "NaN"
  | vNum q =>
      if decAbsGe q 1000000 then jsToFixed2 (decDivPow10 q 6) ++ "M"
      else if decAbsGe q 1000 then jsToFixed2 (decDivPow10 q 3) ++ "K"
      else if decIsInt q then q.m.repr
      else jsToFixed2 q
  | vObj fs => jsonStringify (vObj fs)
  | vArr xs => jsonStringify (vArr xs)
  | vBool b => if b then "true" else "false"
  | vStr s => s

example : formatValue (vInt 1500000) = "1.50M" := rfl
example : formatValue (vInt (-1500)) = "-1.50K" := rfl
example : formatValue (vInt 42) = "42" := rfl
example : formatValue (vNum ⟨314159, 5⟩) = "3.14" := rfl
example : formatValue (vInt 0) = "0" := rfl
example : formatValue (vInt (-2000000)) = "-2.00M" := rfl
example : formatValue (vInt 5000) = "5.00K" := rfl
example : formatValue (vStr "hello") = "hello" := rfl
example : formatValue (vBool true) = "true" := rfl

/-!  `JSON.parse`, modelled as a recursive-descent parser over the character
list following the JSON grammar (ECMA-404, which is what `JSON.parse`
accepts): strict number syntax (no leading zeros, no bare `+`), double-quoted
strings with escapes, arrays, objects (a duplicated key keeps its first
position and the last value, as JS property assignment does), `true`, `false`,
`null`, and ASCII whitespace.  Failure is `none`; the caller treats it as the
thrown SyntaxError.  The fuel arguments only encode termination; the callers
pass enough fuel for any input. -/

/-- JSON whitespace. -/
def isJsonWs (c : Char) : Bool := c = ' ' || c = '\t' || c = '\n' || c = '\r'

/-- Skip leading JSON whitespace. -/
def skipWs : List Char → List Char
  | [] => []
  | c :: cs => if isJsonWs c then skipWs cs else c :: cs

/-- Decimal digit test. -/
def isDigitCh (c : Char) : Bool := '0' ≤ c && c ≤ '9'

/-- Split off a maximal run of decimal digits. -/
def spanDigits : List Char → List Char × List Char
  | [] => ([], [])
  | c :: cs =>
      if isDigitCh c then
        let (ds, rest) := spanDigits cs
        (c :: ds, rest)
      else ([], c :: cs)

/-- Digits to a natural number. -/
def digitsToNat (ds : List Char) : ℕ :=
  ds.foldl (fun a c => a * 10 + (c.toNat - 48)) 0

/-- Parse a JSON number; returns its exact decimal value. -/
def parseJsonNumber (cs : List Char) : Option (DecNum × List Char) :=
  let (neg, cs1) := match cs with
    | '-' :: r => (true, r)
    | _ => (false, cs)
  match cs1 with
  | [] => none
  | c :: r =>
    if c = '0' ∨ isDigitCh c then
      let (ipart, rest1) :=
        if c = '0' then (([c] : List Char), r)
        else spanDigits (c :: r)
      let (fpart, rest2) :=
        match rest1 with
        | '.' :: r2 =>
            let (ds, r3) := spanDigits r2
            (ds, r3)
        | _ => ([], rest1)
      if fpart.isEmpty && (match rest1 with | '.' :: _ => true | _ => false) then
        none
      else
        let withExp : Option (ℤ × List Char) :=
          match rest2 with
          | e :: r4 =>
              if e = 'e' ∨ e = 'E' then
                let (esign, r5) : ℤ × List Char := match r4 with
                  | '+' :: r6 => (1, r6)
                  | '-' :: r6 => (-1, r6)
                  | _ => (1, r4)
                match spanDigits r5 with
                | ([], _) => none
                | (eds, r7) => some (esign * digitsToNat eds, r7)
              else some (0, rest2)
          | [] => some (0, rest2)
        match withExp with
        | none => none
        | some (expv, rest) =>
            let mant : ℤ := (digitsToNat (ipart ++ fpart) : ℤ)
            let mant := if neg then -mant else mant
            let fracLen : ℤ := (fpart.length : ℤ)
            let shift : ℤ := expv - fracLen
            let value :=
              if 0 ≤ shift then decNorm (mant * 10 ^ shift.toNat) 0
              else decNorm mant (-shift).toNat
            some (value, rest)
    else none

example : parseJsonNumber "10".data = some (⟨10, 0⟩, []) := rfl
example : parseJsonNumber "-1.5".data = some (⟨-15, 1⟩, []) := rfl
example : parseJsonNumber "1.5e3".data = some (⟨1500, 0⟩, []) := rfl
example : parseJsonNumber "0123".data = some (⟨0, 0⟩, ['1', '2', '3']) := rfl
example : parseJsonNumber "x".data = none := rfl

/-- Parse the body of a JSON string literal (after the opening quote),
accumulating decoded characters.  Raw control characters are rejected, as
`JSON.parse` rejects them. -/
def parseJsonStrGo : Nat → List Char → List Char → Option (String × List Char)
  | 0, _, _ => none
  | _ + 1, acc, [] => none
  | fuel + 1, acc, c :: cs =>
    if c = '"' then some (String.mk acc.reverse, cs)
    else if c = '\\' then
      match cs with
      | [] => none
      | e :: cs2 =>
        if e = '"' then parseJsonStrGo fuel ('"' :: acc) cs2
        else if e = '\\' then parseJsonStrGo fuel ('\\' :: acc) cs2
        else if e = '/' then parseJsonStrGo fuel ('/' :: acc) cs2
        else if e = 'b' then parseJsonStrGo fuel ('\x08' :: acc) cs2
        else if e = 'f' then parseJsonStrGo fuel ('\x0c' :: acc) cs2
        else if e = 'n' then parseJsonStrGo fuel ('\n' :: acc) cs2
        else if e = 'r' then parseJsonStrGo fuel ('\r' :: acc) cs2
        else if e = 't' then parseJsonStrGo fuel ('\t' :: acc) cs2
        else if e = 'u' then
          match cs2 with
          | h1 :: h2 :: h3 :: h4 :: cs3 =>
              let hv : Char → Option Nat := fun h =>
                if isDigitCh h then some (h.toNat - 48)
                else if 'a' ≤ h && h ≤ 'f' then some (h.toNat - 87)
                else if 'A' ≤ h && h ≤ 'F' then some (h.toNat - 55)
                else none
              match hv h1, hv h2, hv h3, hv h4 with
              | some a, some b, some c1, some d =>
                  parseJsonStrGo fuel
                    (Char.ofNat (a * 4096 + b * 256 + c1 * 16 + d) :: acc) cs3
              | _, _, _, _ => none
          | _ => none
        else none
    else if c.toNat < 32 then none
    else parseJsonStrGo fuel (c :: acc) cs

/-- Check that the characters of `lit` start the input and drop them. -/
def dropLit : List Char → List Char → Option (List Char)
  | [], cs => some cs
  | l :: ls, c :: cs => if c = l then dropLit ls cs else none
  | _ :: _, [] => none

mutual

/-- Parse one JSON value (leading whitespace allowed). -/
def parseJsonValue : Nat → List Char → Option (JSVal × List Char)
  | 0, _ => none
  | fuel + 1, cs =>
    match skipWs cs with
    | [] => none
    | c :: rest =>
      if c = 'n' then (dropLit "ull".data rest).map (fun r => (vNull, r))
      else if c = 't' then (dropLit "rue".data rest).map (fun r => (vBool true, r))
      else if c = 'f' then (dropLit "alse".data rest).map (fun r => (vBool false, r))
      else if c = '"' then
        (parseJsonStrGo (rest.length + 1) [] rest).map (fun (s, r) => (vStr s, r))
      else if c = '[' then
        match skipWs rest with
        | ']' :: r2 => some (vArr [], r2)
        | r1 =>
          match parseJsonValue fuel r1 with
          | none => none
          | some (v, r2) => parseJsonArrTail fuel [v] r2
      else if c = '\x7b' then
        match skipWs rest with
        | '\x7d' :: r2 => some (vObj [], r2)
        | r1 =>
          match parseJsonMember fuel r1 with
          | none => none
          | some (k, v, r2) => parseJsonObjTail fuel (setKey [] k v) r2
      else
        (parseJsonNumber (c :: rest)).map (fun (q, r) => (vNum q, r))

/-- Parse the remaining elements of an array, after the first. -/
def parseJsonArrTail : Nat → List JSVal → List Char → Option (JSVal × List Char)
  | 0, _, _ => none
  | fuel + 1, acc, cs =>
    match skipWs cs with
    | ',' :: r =>
        match parseJsonValue fuel r with
        | none => none
        | some (v, r2) => parseJsonArrTail fuel (acc ++ [v]) r2
    | ']' :: r => some (vArr acc, r)
    | _ => none

/-- Parse one `"key": value` object member. -/
def parseJsonMember : Nat → List Char → Option (String × JSVal × List Char)
  | 0, _ => none
  | fuel + 1, cs =>
    match skipWs cs with
    | '"' :: r =>
        match parseJsonStrGo (r.length + 1) [] r with
        | none => none
        | some (k, r2) =>
            match skipWs r2 with
            | ':' :: r3 =>
                match parseJsonValue fuel r3 with
                | none => none
                | some (v, r4) => some (k, v, r4)
            | _ => none
    | _ => none

/-- Parse the remaining members of an object, after the first. -/
def parseJsonObjTail : Nat → List (String × JSVal) → List Char →
    Option (JSVal × List Char)
  | 0, _, _ => none
  | fuel + 1, acc, cs =>
    match skipWs cs with
    | ',' :: r =>
        match parseJsonMember fuel r with
        | none => none
        | some (k, v, r2) => parseJsonObjTail fuel (setKey acc k v) r2
    | '\x7d' :: r => some (vObj acc, r)
    | _ => none

end

/-- `JSON.parse(s)`: parse one value and require only whitespace after it.
`none` models the thrown SyntaxError. -/
def jsonParse (s : String) : Option JSVal :=
  match parseJsonValue (2 * s.length + 4) s.data with
  | some (v, rest) => if skipWs rest = [] then some v else none
  | none => none

example : jsonParse "10" = some (vInt 10) := rfl
example : jsonParse "solana" = none := rfl
example : jsonParse "" = none := rfl
example : jsonParse "0x12ab" = none := rfl
example : jsonParse "true" = some (vBool true) := rfl
example : jsonParse "null" = some vNull := rfl
example : jsonParse "\"hi\"" = some (vStr "hi") := rfl
example : jsonParse "[1,2]" = some (vArr [vInt 1, vInt 2]) := rfl
example : jsonParse "\x7b\"only_smart_money\":true\x7d"
    = some (vObj [("only_smart_money", vBool true)]) := rfl
example : jsonParse "\x7b \"a\": [1, \"x\"] , \"b\": -2.5 \x7d"
    = some (vObj [("a", vArr [vInt 1, vStr "x"]), ("b", vNum ⟨-25, 1⟩)]) := rfl
example : jsonParse "[1," = none := rfl
example : jsonParse "01" = none := rfl
example : jsonParse "-5" = some (vInt (-5)) := rfl

/-!  Argument parsing (`parseArgs`, src/src/cli.js lines 10-41). -/

/-- `s.startsWith(p)`, computed on the character list (the standard library
version works on byte positions, which the kernel cannot evaluate). -/
def strStartsWith (s p : String) : Bool := p.data.isPrefixOf s.data

/-- `s.slice(n)` on characters: drop the first `n` characters. -/
def strDrop (s : String) (n : Nat) : String := String.mk (s.data.drop n)

example : strStartsWith "--chain" "--" = true := rfl
example : strStartsWith "-5" "--" = false := rfl
example : strStartsWith "" "-" = false := rfl
example : strDrop "--chain" 2 = "chain" := rfl

/-- The fixed pure-boolean flag names of the parser (cli.js line 20). -/
def pureBoolFlags : List String := ["pretty", "help", "table", "no-retry"]

/-- The result of `parseArgs`: positional tokens (the source's `_`), boolean
flags, and valued options. -/
structure ParsedArgs where
  pos : List String
  flags : List (String × JSVal)
  options : List (String × JSVal)

/-- `JSON.parse(next)` with the raw string as fallback (cli.js lines 24-28). -/
def jsonOrRaw (s : String) : JSVal :=
  match jsonParse s with
  | some v => v
  | none => vStr s

/-- The loop body of `parseArgs`.  One step of the JS `for` loop consumes one
token (or two, when a token starting with `--` that is not a pure boolean
flag is followed by a non-empty token not starting with `-`, which becomes
its value).  The emptiness test comes from the JS truthiness test
`next && !next.startsWith('-')`. -/
def parseArgsGo : List String → ParsedArgs → ParsedArgs
  | [], r => r
  | [arg], r =>
    -- Last iteration of the JS loop: `args[i + 1]` is `undefined`, which is
    -- falsy, so a `--` token always becomes a flag here.
    if strStartsWith arg "--" then
      { r with flags := setKey r.flags (strDrop arg 2) (vBool true) }
    else if strStartsWith arg "-" then
      { r with flags := setKey r.flags (strDrop arg 1) (vBool true) }
    else
      { r with pos := r.pos ++ [arg] }
  | arg :: next :: rest, r =>
    if strStartsWith arg "--" then
      let key := strDrop arg 2
      if key ∈ pureBoolFlags then
        parseArgsGo (next :: rest) { r with flags := setKey r.flags key (vBool true) }
      else if next ≠ "" ∧ strStartsWith next "-" = false then
        parseArgsGo rest
          { r with options := setKey r.options key (jsonOrRaw next) }
      else
        parseArgsGo (next :: rest) { r with flags := setKey r.flags key (vBool true) }
    else if strStartsWith arg "-" then
      parseArgsGo (next :: rest)
        { r with flags := setKey r.flags (strDrop arg 1) (vBool true) }
    else
      parseArgsGo (next :: rest) { r with pos := r.pos ++ [arg] }

/-- `parseArgs` from src/src/cli.js lines 10-41. -/
def parseArgs (args : List String) : ParsedArgs :=
  parseArgsGo args ⟨[], [], []⟩

example : (parseArgs ["token", "screener"]).pos = ["token", "screener"] := rfl
example : (parseArgs ["--pretty", "--table", "--no-retry"]).flags
    = [("pretty", vBool true), ("table", vBool true), ("no-retry", vBool true)] := rfl
example : (parseArgs ["-p", "-t"]).flags = [("p", vBool true), ("t", vBool true)] := rfl
example : (parseArgs ["--chain", "solana", "--limit", "10"]).options
    = [("chain", vStr "solana"), ("limit", vInt 10)] := rfl
example : (parseArgs ["--filters", "\x7b\"only_smart_money\":true\x7d"]).options
    = [("filters", vObj [("only_smart_money", vBool true)])] := rfl
example : (parseArgs ["--verbose", "--debug"]).flags
    = [("verbose", vBool true), ("debug", vBool true)] := rfl
example : (parseArgs ["--limit", "-5"]).flags
    = [("limit", vBool true), ("5", vBool true)] := rfl
example : (parseArgs ["--limit", "-5"]).options = [] := rfl
example : parseArgs ["--chain", ""]
    = ⟨[""], [("chain", vBool true)], []⟩ := rfl

/-!  `parseSort` (src/src/cli.js lines 154-167). -/

/-- Splitter for `s.split(sep)` (single-character separator), on character
lists. -/
def splitCharGo (sep : Char) : List Char → List (List Char)
  | [] => [[]]
  | x :: xs =>
    let r := splitCharGo sep xs
    if x = sep then [] :: r
    else
      match r with
      | [] => [[x]]
      | h :: t => (x :: h) :: t

/-- JS `s.split(sep)` for a single-character separator. -/
def splitChar (sep : Char) (s : String) : List String :=
  (splitCharGo sep s.data).map String.mk

example : splitChar ':' "value_usd:asc" = ["value_usd", "asc"] := rfl
example : splitChar ':' "timestamp" = ["timestamp"] := rfl
example : splitChar ':' "" = [""] := rfl
example : splitChar ':' "f:" = ["f", ""] := rfl

/-- ASCII upper-casing of a character. -/
def chUpper (c : Char) : Char :=
  if 'a' ≤ c && c ≤ 'z' then Char.ofNat (c.toNat - 32) else c

/-- JS `s.toUpperCase()` (ASCII). -/
def strToUpper (s : String) : String := String.mk (s.data.map chUpper)

example : strToUpper "desc" = "DESC" := rfl
example : strToUpper "asc" = "ASC" := rfl

/-- `parseSort` from src/src/cli.js lines 154-167.  Both arguments are JS
values (`vUndef` when the option is absent); `if (orderByOption)` and
`if (!sortOption)` are JS truthiness tests.  A truthy non-string sort option
makes the source throw (`sortOption.split` is not a function); that is the
`Except.error` case. -/
def parseSort (sortOption orderByOption : JSVal) : Except String JSVal :=
  if jsTruthy orderByOption then .ok orderByOption
  else if jsTruthy sortOption = false then .ok vUndef
  else
    match sortOption with
    | vStr s =>
        let parts := splitChar ':' s
        let field := match parts.head? with
          | some f => f
          | none => ""
        let dir0 := match parts with
          | _ :: d :: _ => d
          | _ => ""
        let direction := strToUpper (if dir0 = "" then "desc" else dir0)
        .ok (vArr [vObj [("field", vStr field), ("direction", vStr direction)]])
    | _ => .error "sortOption.split is not a function"

example : parseSort (vStr "value_usd:asc") vUndef
    = .ok (vArr [vObj [("field", vStr "value_usd"), ("direction", vStr "ASC")]]) := rfl
example : parseSort (vStr "timestamp") vUndef
    = .ok (vArr [vObj [("field", vStr "timestamp"), ("direction", vStr "DESC")]]) := rfl
example : parseSort vUndef vUndef = .ok vUndef := rfl
example : parseSort (vStr "value:desc") (vArr [vObj [("field", vStr "price")]])
    = .ok (vArr [vObj [("field", vStr "price")]]) := rfl
example : parseSort (vStr "") vUndef = .ok vUndef := rfl
example : parseSort (vStr "f:") vUndef
    = .ok (vArr [vObj [("field", vStr "f"), ("direction", vStr "DESC")]]) := rfl

/-!  Table formatting (`formatTable`, src/src/cli.js lines 57-124).  The parts
of the source that can throw a TypeError (`Object.keys` and property reads on
`null`/`undefined` records) are modelled in Except. -/

/-- The priority column names of cli.js line 78. -/
def priorityFields : List String :=
  ["token_symbol", "token_name", "symbol", "name", "address", "label", "chain",
   "value_usd", "amount", "pnl_usd", "price_usd", "volume_usd", "net_flow_usd",
   "timestamp", "block_timestamp"]

/-- Code-unit `≤` on character lists. -/
def charListLe : List Char → List Char → Bool
  | [], _ => true
  | _ :: _, [] => false
  | a :: as, b :: bs =>
      if a.toNat < b.toNat then true
      else if b.toNat < a.toNat then false
      else charListLe as bs

/-- The column comparator of cli.js lines 82-89 as a `≤`-style Boolean
relation (`compare a b ≤ 0`): priority fields first, in priority order, then
the rest; `localeCompare` on the rest is modelled as code-unit order, which
agrees with it on the ASCII field names that occur. -/
def colCmpLe (a b : String) : Bool :=
  match priorityFields.findIdx? (· = a), priorityFields.findIdx? (· = b) with
  | some i, some j => i ≤ j
  | some _, none => true
  | none, some _ => false
  | none, none => charListLe a.data b.data

/-- Insert into a sorted list (stable insertion sort, the order produced by
`Array.prototype.sort` with a total comparator). -/
def insertLe {α : Type} (le : α → α → Bool) (a : α) : List α → List α
  | [] => [a]
  | b :: bs => if le a b then a :: b :: bs else b :: insertLe le a bs

/-- Sort by the given `≤`-style relation. -/
def sortLe {α : Type} (le : α → α → Bool) : List α → List α
  | [] => []
  | a :: as => insertLe le a (sortLe le as)

theorem insertLe_length {α : Type} (le : α → α → Bool) (a : α) :
    ∀ l : List α, (insertLe le a l).length = l.length + 1 := by
  intro l
  induction l with
  | nil => rfl
  | cons b bs ih =>
      simp only [insertLe]
      by_cases h : le a b = true
      · simp [h]
      · simp [h, ih]

theorem sortLe_length {α : Type} (le : α → α → Bool) :
    ∀ l : List α, (sortLe le l).length = l.length := by
  intro l
  induction l with
  | nil => rfl
  | cons a as ih => simp [sortLe, insertLe_length, ih]

/-- First-occurrence deduplication, as `[...new Set(xs)]` produces. -/
def dedupFirstGo (seen : List String) : List String → List String
  | [] => []
  | a :: as =>
      if a ∈ seen then dedupFirstGo seen as
      else a :: dedupFirstGo (a :: seen) as

/-- `[...new Set(xs)]`. -/
def dedupFirst (xs : List String) : List String := dedupFirstGo [] xs

example : dedupFirst ["b", "a", "b", "c", "a"] = ["b", "a", "c"] := rfl

/-- `List.mapM` specialised to `Except` by structural recursion (easier to
reason about than the accumulator-based library `mapM`). -/
def mapME {α β : Type} (f : α → Except String β) :
    List α → Except String (List β)
  | [] => .ok []
  | a :: as =>
    match f a with
    | .error e => .error e
    | .ok b =>
      match mapME f as with
      | .error e => .error e
      | .ok bs => .ok (b :: bs)

theorem mapME_ok_length {α β : Type} (f : α → Except String β) :
    ∀ (l : List α) (res : List β), mapME f l = .ok res → res.length = l.length := by
  intro l
  induction l with
  | nil => intro res h; cases h; rfl
  | cons a as ih =>
      intro res h
      simp only [mapME] at h
      cases hf : f a with
      | error e => rw [hf] at h; cases h
      | ok b =>
          rw [hf] at h
          cases hm : mapME f as with
          | error e => rw [hm] at h; cases h
          | ok bs =>
              rw [hm] at h
              cases h
              simp [ih bs hm]

/-- Digit-string to number, `none` when not a plain digit run. -/
def strToNatQ (s : String) : Option Nat :=
  if s ≠ "" ∧ s.data.all isDigitCh then some (digitsToNat s.data) else none

/-- `Object.keys(r)` (cli.js line 79): throws on `null`/`undefined`, gives
index keys for arrays and strings, own enumerable keys for objects, and no
keys for boxed primitives. -/
def objKeys : JSVal → Except String (List String)
  | vNull => .error "Cannot convert undefined or null to object"
  | vUndef => .error "Cannot convert undefined or null to object"
  | vObj fs => .ok (dedupFirst (fs.map Prod.fst))
  | vArr xs => .ok ((List.range xs.length).map Nat.repr)
  | vStr s => .ok ((List.range s.length).map Nat.repr)
  | _ => .ok []

/-- `r[col]` (cli.js lines 95, 113): throws on `null`/`undefined`, indexes
arrays and strings by numeric keys, reads object properties, and yields
`undefined` on primitives.  (Non-index built-in properties of arrays and
strings, such as `length`, are not modelled; no claim touches them.) -/
def propGetE : JSVal → String → Except String JSVal
  | vNull, _ => .error "Cannot read properties of null"
  | vUndef, _ => .error "Cannot read properties of undefined"
  | vObj fs, k => .ok (objGet fs k)
  | vArr xs, k =>
      .ok (match strToNatQ k with
        | some i => xs.getD i vUndef
        | none => vUndef)
  | vStr s, k =>
      .ok (match strToNatQ k with
        | some i =>
            match s.data.get? i with
            | some c => vStr (String.singleton c)
            | none => vUndef
        | none => vUndef)
  | _, _ => .ok vUndef

/-- Optional-chaining property access `v?.k` as used on lines 62-67 (never
throws; primitives have no `data`/`results` property). -/
def getQ : JSVal → String → JSVal
  | vObj fs, k => objGet fs k
  | _, _ => vUndef

/-- Record extraction from the various response shapes
(cli.js lines 59-71). -/
def extractRecords (data : JSVal) : List JSVal :=
  match data with
  | vArr xs => xs
  | _ =>
    match getQ data "data" with
    | vArr xs => xs
    | dd =>
      match getQ data "results" with
      | vArr xs => xs
      | _ =>
        match getQ dd "results" with
        | vArr xs => xs
        | _ =>
          match data with
          | vObj fs => [vObj fs]
          | _ => []

example : extractRecords (vArr [vInt 1]) = [vInt 1] := rfl
example : extractRecords (vObj [("data", vArr [vInt 1])]) = [vInt 1] := rfl
example : extractRecords (vObj [("results", vArr [vInt 2])]) = [vInt 2] := rfl
example : extractRecords (vObj [("data", vObj [("results", vArr [vInt 3])])])
    = [vInt 3] := rfl
example : extractRecords (vObj [("x", vInt 1)]) = [vObj [("x", vInt 1)]] := rfl
example : extractRecords (vStr "s") = [] := rfl
example : extractRecords vNull = [] := rfl

/-- Column selection (cli.js lines 78-89): union of keys, dedup, sort with
the priority comparator, first 8. -/
def tableColumns (records : List JSVal) : Except String (List String) :=
  match mapME objKeys records with
  | .error e => .error e
  | .ok keyss =>
      .ok ((sortLe colCmpLe (dedupFirst keyss.flatten)).take 8)

/-- Largest element of a list of naturals (the `Math.max` spread). -/
def maxList (l : List Nat) : Nat := l.foldl max 0

/-- Column width (cli.js lines 92-99): max of header length and longest
formatted cell, capped at 30. -/
def colWidthE (records : List JSVal) (col : String) : Except String Nat :=
  match mapME (fun r =>
      match propGetE r col with
      | .error e => .error e
      | .ok v => .ok ((formatValue v).length)) records with
  | .error e => .error e
  | .ok lens => .ok (min (max col.length (maxList lens)) 30)

/-- `val.slice(0, n)`. -/
def strSlice (s : String) (n : Nat) : String := String.mk (s.data.take n)

/-- `s.padEnd(w)` (with spaces). -/
def padEnd (s : String) (w : Nat) : String :=
  s ++ String.mk (List.replicate (w - s.length) ' ')

/-- Data rows (cli.js lines 111-117): first 50 records, each cell truncated
and padded to its column width, joined with the column separator. -/
def tableRowsE (records : List JSVal) (cols : List String) (widths : List Nat) :
    Except String (List String) :=
  mapME (fun r =>
    match mapME (fun cw : String × Nat =>
        match propGetE r cw.1 with
        | .error e => .error e
        | .ok v => .ok (padEnd (strSlice (formatValue v) cw.2) cw.2))
      (cols.zip widths) with
    | .error e => .error e
    | .ok cells => .ok (String.intercalate " │ " cells))
    (records.take 50)

/-- The rendered table lines for a non-empty record list (cli.js
lines 78-121): header, separator rule, at most 50 data rows, and the
omitted-row trailer when more than 50 records exist. -/
def formatTableLinesE (records : List JSVal) : Except String (List String) :=
  match tableColumns records with
  | .error e => .error e
  | .ok cols =>
    match mapME (colWidthE records) cols with
    | .error e => .error e
    | .ok widths =>
      let header := String.intercalate " │ " (List.zipWith padEnd cols widths)
      let sep := String.intercalate "─┼─"
        (widths.map (fun w => String.mk (List.replicate w '─')))
      match tableRowsE records cols widths with
      | .error e => .error e
      | .ok rows =>
          let trailer :=
            if records.length > 50 then
              ["... and " ++ Nat.repr (records.length - 50) ++ " more rows"]
            else []
          .ok ([header, sep] ++ rows ++ trailer)

/-- `formatTable` from src/src/cli.js lines 57-124 (named `formatTableE` here
because Mathlib already has a `formatTable`).  `Except.error` models the
TypeError the source throws when a record is `null`/`undefined`. -/
def formatTableE (data : JSVal) : Except String String :=
  let records := extractRecords data
  if records.length = 0 then .ok "No data"
  else
    match formatTableLinesE records with
    | .error e => .error e
    | .ok lines => .ok (String.intercalate "\n" lines)

example : formatTableE (vArr []) = .ok "No data" := rfl
example : formatTableE vNull = .ok "No data" := rfl
example : formatTableE (vArr [vObj [("name", vStr "Single"), ("value", vInt 123)]])
    = .ok "name   │ value\n───────┼──────\nSingle │ 123  " := rfl
example : formatTableE (vArr [vNull]) = .error "Cannot convert undefined or null to object" := rfl
example : tableColumns [vObj [("zebra", vInt 1), ("token_symbol", vStr "ABC"), ("apple", vInt 2)]]
    = .ok ["token_symbol", "apple", "zebra"] := rfl

/-!  Address-shape validation predicates.  No validation code exists in
src/src/cli.js; these predicates are needed to state the spec's validation
claim. -/

/-- Modelled from the spec: the "EVM hex-prefixed 40-hex-digit form" of an
address ("Address/query validation", spec section 4.2).  No such validation
routine exists in the sources under src/. -/
def specIsEvmAddress (s : String) : Bool :=
  strStartsWith s "0x" && (strDrop s 2).length = 40 &&
    (strDrop s 2).data.all (fun c =>
      isDigitCh c || ('a' ≤ c && c ≤ 'f') || ('A' ≤ c && c ≤ 'F'))

/-- Modelled from the spec: the "Solana Base58 form" of an address (spec
section 4.2): a non-empty string over the Base58 alphabet.  No such
validation routine exists in the sources under src/. -/
def specIsSolanaAddress (s : String) : Bool :=
  s ≠ "" && s.data.all (fun c =>
    ("123456789ABCDEFGHJKLMNPQRSTUVWXYZabcdefghijkmnopqrstuvwxyz").data.contains c)

/-- Modelled from the spec: address-shape validity "against the target
chain's format (EVM hex-prefixed 40-hex-digit form vs. Solana Base58
form)". -/
def specAddressValid (chain s : String) : Bool :=
  if chain = "solana" then specIsSolanaAddress s else specIsEvmAddress s

example : specAddressValid "ethereum"
    "0x28c6c06298d514db089934071355e5743bf21d60" = true := rfl
example : specAddressValid "ethereum" "not-an-address" = false := rfl
example : specAddressValid "solana"
    "Gu29tjXrVr9v5n42sX1DNrMiF3BwbrTm379szgB9qXjc" = true := rfl
example : specAddressValid "solana" "0x!!" = false := rfl

/-!  Command handlers (`buildCommands`, src/src/cli.js lines 280-481).  The
API instance is abstracted: instead of performing the HTTP request, a handler
that reaches an `apiInstance.<method>(payload)` call returns that call as
data (`HandlerRes.call`).  Handlers that return a plain object (help and
unknown-subcommand payloads) return `HandlerRes.ret`; a thrown TypeError is
`HandlerRes.thrown`.  Because the smart-money and token handlers mutate the
object held in `options.filters` in place, each handler also returns the
options map as it stands after the handler ran (`optionsAfter`). -/

/-- What a family handler did. -/
inductive HandlerRes where
  | call : String → JSVal → HandlerRes
  | ret : JSVal → HandlerRes
  | thrown : String → HandlerRes

/-- Handler result together with the post-run state of the (mutable) options
map. -/
structure HandlerOut where
  result : HandlerRes
  optionsAfter : List (String × JSVal)

/-- Strict-mode JS property assignment `target[k] = v`: updates objects,
silently leaves arrays unchanged in this model (array expando properties are
not representable and nothing reads them), throws on primitives, `null` and
`undefined`. -/
def jsSetPropE : JSVal → String → JSVal → Except String JSVal
  | vObj fs, k, v => .ok (vObj (setKey fs k v))
  | vArr xs, _, _ => .ok (vArr xs)
  | _, _, _ => .error "Cannot create property on primitive value"

/-- `parseInt(v)`: numbers truncate toward zero; strings are parsed as an
optionally signed leading digit run after whitespace (the hexadecimal
`0x` autodetection and array-to-string coercions are not modelled — no claim
exercises them); everything else is NaN. -/
def jsParseIntVal : JSVal → JSVal
  | vNum q => vNum ⟨Int.tdiv q.m (10 ^ q.e), 0⟩
  | vStr s =>
      let cs := skipWs s.data
      let (neg, cs1) := match cs with
        | '-' :: r => (true, r)
        | '+' :: r => (false, r)
        | _ => (false, cs)
      match spanDigits cs1 with
      | ([], _) => vNaN
      | (ds, _) =>
          vNum ⟨(if neg then (-1 : ℤ) else 1) * digitsToNat ds, 0⟩
  | _ => vNaN

example : jsParseIntVal (vStr "30") = vInt 30 := rfl
example : jsParseIntVal (vNum ⟨37, 1⟩) = vInt 3 := rfl
example : jsParseIntVal (vStr "x") = vNaN := rfl
example : jsParseIntVal vNull = vNaN := rfl

/-- The unknown-subcommand payload
`{ error: 'Unknown subcommand: <name>', available: [...] }`. -/
def unknownSub (name : String) (keys : List String) : JSVal :=
  vObj [("error", vStr ("Unknown subcommand: " ++ name)),
        ("available", vArr (keys.map vStr))]

/-- `args[0] || 'help'`. -/
def subOf (args : List String) : String :=
  match args.head? with
  | some s => if s = "" then "help" else s
  | none => "help"

/-- The keys of the smart-money handler map (cli.js lines 358-370), in
insertion order. -/
def smKeys : List String :=
  ["netflow", "dex-trades", "perp-trades", "holdings", "dcas",
   "historical-holdings", "help"]

/-- The smart-money help payload (cli.js lines 365-369). -/
def smHelpObj : JSVal :=
  vObj [("commands", vArr ((["netflow", "dex-trades", "perp-trades", "holdings",
          "dcas", "historical-holdings"] : List String).map vStr)),
        ("description", vStr "Smart Money analytics endpoints"),
        ("example", vStr "nansen smart-money netflow --chain solana --labels Fund")]

/-- The `'smart-money'` handler (cli.js lines 341-377). -/
def smartMoneyCmd (args : List String) (_flags opts : List (String × JSVal)) :
    HandlerOut :=
  let subcommand := subOf args
  let chain := jsOr (objGet opts "chain") (vStr "solana")
  let chains := jsOr (objGet opts "chains") (vArr [chain])
  let filters0 := jsOr (objGet opts "filters") (vObj [])
  match parseSort (objGet opts "sort") (objGet opts "order-by") with
  | .error msg => ⟨.thrown msg, opts⟩
  | .ok orderBy =>
    let pagination :=
      if jsTruthy (objGet opts "limit") then
        vObj [("page", vInt 1), ("per_page", objGet opts "limit")]
      else vUndef
    let labels := objGet opts "labels"
    let mutated :=
      if jsTruthy labels then
        let lv : JSVal := match labels with
          | vArr xs => vArr xs
          | l => vArr [l]
        (jsSetPropE filters0 "include_smart_money_labels" lv).map (fun f2 =>
          (f2, if jsTruthy (objGet opts "filters") then setKey opts "filters" f2
               else opts))
      else .ok (filters0, opts)
    match mutated with
    | .error msg => ⟨.thrown msg, opts⟩
    | .ok (filters, optsAfter) =>
      let days :=
        if jsTruthy (objGet opts "days") then jsParseIntVal (objGet opts "days")
        else vInt 30
      let res : HandlerRes :=
        if subcommand = "netflow" then
          .call "smartMoneyNetflow" (vObj [("chains", chains), ("filters", filters),
            ("orderBy", orderBy), ("pagination", pagination)])
        else if subcommand = "dex-trades" then
          .call "smartMoneyDexTrades" (vObj [("chains", chains), ("filters", filters),
            ("orderBy", orderBy), ("pagination", pagination)])
        else if subcommand = "perp-trades" then
          .call "smartMoneyPerpTrades" (vObj [("filters", filters),
            ("orderBy", orderBy), ("pagination", pagination)])
        else if subcommand = "holdings" then
          .call "smartMoneyHoldings" (vObj [("chains", chains), ("filters", filters),
            ("orderBy", orderBy), ("pagination", pagination)])
        else if subcommand = "dcas" then
          .call "smartMoneyDcas" (vObj [("filters", filters),
            ("orderBy", orderBy), ("pagination", pagination)])
        else if subcommand = "historical-holdings" then
          .call "smartMoneyHistoricalHoldings" (vObj [("chains", chains),
            ("filters", filters), ("orderBy", orderBy), ("pagination", pagination),
            ("days", days)])
        else if subcommand = "help" then .ret smHelpObj
        else .ret (unknownSub subcommand smKeys)
      ⟨res, optsAfter⟩

/-- The keys of the profiler handler map (cli.js lines 389-406), in insertion
order. -/
def profilerKeys : List String :=
  ["balance", "labels", "transactions", "pnl", "search", "historical-balances",
   "related-wallets", "counterparties", "pnl-summary", "perp-positions",
   "perp-trades", "help"]

/-- The profiler help payload (cli.js lines 401-405). -/
def profilerHelpObj : JSVal :=
  vObj [("commands", vArr ((["balance", "labels", "transactions", "pnl", "search",
          "historical-balances", "related-wallets", "counterparties",
          "pnl-summary", "perp-positions", "perp-trades"] : List String).map vStr)),
        ("description", vStr "Wallet profiling endpoints"),
        ("example", vStr "nansen profiler balance --address 0x123... --chain ethereum")]

/-- The `'profiler'` handler (cli.js lines 379-413).  It mutates nothing, so
`optionsAfter` is always the input map. -/
def profilerCmd (args : List String) (_flags opts : List (String × JSVal)) :
    HandlerOut :=
  let subcommand := subOf args
  let address := objGet opts "address"
  let entityName := jsOr (objGet opts "entity") (objGet opts "entity-name")
  let chain := jsOr (objGet opts "chain") (vStr "ethereum")
  let filters := jsOr (objGet opts "filters") (vObj [])
  match parseSort (objGet opts "sort") (objGet opts "order-by") with
  | .error msg => ⟨.thrown msg, opts⟩
  | .ok orderBy =>
    let pagination :=
      if jsTruthy (objGet opts "limit") then
        vObj [("page", vInt 1), ("recordsPerPage", objGet opts "limit")]
      else vUndef
    let days :=
      if jsTruthy (objGet opts "days") then jsParseIntVal (objGet opts "days")
      else vInt 30
    let res : HandlerRes :=
      if subcommand = "balance" then
        .call "addressBalance" (vObj [("address", address),
          ("entityName", entityName), ("chain", chain), ("filters", filters),
          ("orderBy", orderBy)])
      else if subcommand = "labels" then
        .call "addressLabels" (vObj [("address", address), ("chain", chain),
          ("pagination", pagination)])
      else if subcommand = "transactions" then
        .call "addressTransactions" (vObj [("address", address), ("chain", chain),
          ("filters", filters), ("orderBy", orderBy), ("pagination", pagination)])
      else if subcommand = "pnl" then
        .call "addressPnl" (vObj [("address", address), ("chain", chain)])
      else if subcommand = "search" then
        .call "entitySearch" (vObj [("query", objGet opts "query"),
          ("pagination", pagination)])
      else if subcommand = "historical-balances" then
        .call "addressHistoricalBalances" (vObj [("address", address),
          ("chain", chain), ("filters", filters), ("orderBy", orderBy),
          ("pagination", pagination), ("days", days)])
      else if subcommand = "related-wallets" then
        .call "addressRelatedWallets" (vObj [("address", address),
          ("chain", chain), ("filters", filters), ("orderBy", orderBy),
          ("pagination", pagination)])
      else if subcommand = "counterparties" then
        .call "addressCounterparties" (vObj [("address", address),
          ("chain", chain), ("filters", filters), ("orderBy", orderBy),
          ("pagination", pagination), ("days", days)])
      else if subcommand = "pnl-summary" then
        .call "addressPnlSummary" (vObj [("address", address), ("chain", chain),
          ("filters", filters), ("orderBy", orderBy), ("pagination", pagination),
          ("days", days)])
      else if subcommand = "perp-positions" then
        .call "addressPerpPositions" (vObj [("address", address),
          ("filters", filters), ("orderBy", orderBy), ("pagination", pagination)])
      else if subcommand = "perp-trades" then
        .call "addressPerpTrades" (vObj [("address", address),
          ("filters", filters), ("orderBy", orderBy), ("pagination", pagination),
          ("days", days)])
      else if subcommand = "help" then .ret profilerHelpObj
      else .ret (unknownSub subcommand profilerKeys)
    ⟨res, opts⟩

/-- The keys of the token handler map (cli.js lines 433-451), in insertion
order. -/
def tokenKeys : List String :=
  ["screener", "holders", "flows", "dex-trades", "pnl", "who-bought-sold",
   "flow-intelligence", "transfers", "jup-dca", "perp-trades", "perp-positions",
   "perp-pnl-leaderboard", "help"]

/-- The token help payload (cli.js lines 446-450). -/
def tokenHelpObj : JSVal :=
  vObj [("commands", vArr ((["screener", "holders", "flows", "dex-trades", "pnl",
          "who-bought-sold", "flow-intelligence", "transfers", "jup-dca",
          "perp-trades", "perp-positions",
          "perp-pnl-leaderboard"] : List String).map vStr)),
        ("description", vStr "Token God Mode endpoints"),
        ("example", vStr "nansen token screener --chain solana --timeframe 24h --smart-money")]

/-- The `'token'` handler (cli.js lines 415-458). -/
def tokenCmd (args : List String) (flags opts : List (String × JSVal)) :
    HandlerOut :=
  let subcommand := subOf args
  let tokenAddress := jsOr (objGet opts "token") (objGet opts "token-address")
  let tokenSymbol := jsOr (objGet opts "symbol") (objGet opts "token-symbol")
  let chain := jsOr (objGet opts "chain") (vStr "solana")
  let chains := jsOr (objGet opts "chains") (vArr [chain])
  let timeframe := jsOr (objGet opts "timeframe") (vStr "24h")
  let filters0 := jsOr (objGet opts "filters") (vObj [])
  match parseSort (objGet opts "sort") (objGet opts "order-by") with
  | .error msg => ⟨.thrown msg, opts⟩
  | .ok orderBy =>
    let pagination :=
      if jsTruthy (objGet opts "limit") then
        vObj [("page", vInt 1), ("per_page", objGet opts "limit")]
      else vUndef
    let days :=
      if jsTruthy (objGet opts "days") then jsParseIntVal (objGet opts "days")
      else vInt 30
    let onlySmartMoney :=
      jsOr (objGet opts "smart-money") (jsOr (objGet flags "smart-money")
        (vBool false))
    let mutated :=
      if jsTruthy onlySmartMoney then
        (jsSetPropE filters0 "only_smart_money" (vBool true)).map (fun f2 =>
          (f2, if jsTruthy (objGet opts "filters") then setKey opts "filters" f2
               else opts))
      else .ok (filters0, opts)
    match mutated with
    | .error msg => ⟨.thrown msg, opts⟩
    | .ok (filters, optsAfter) =>
      let res : HandlerRes :=
        if subcommand = "screener" then
          .call "tokenScreener" (vObj [("chains", chains), ("timeframe", timeframe),
            ("filters", filters), ("orderBy", orderBy), ("pagination", pagination)])
        else if subcommand = "holders" then
          .call "tokenHolders" (vObj [("tokenAddress", tokenAddress),
            ("chain", chain), ("filters", filters), ("orderBy", orderBy),
            ("pagination", pagination)])
        else if subcommand = "flows" then
          .call "tokenFlows" (vObj [("tokenAddress", tokenAddress),
            ("chain", chain), ("filters", filters), ("orderBy", orderBy),
            ("pagination", pagination)])
        else if subcommand = "dex-trades" then
          .call "tokenDexTrades" (vObj [("tokenAddress", tokenAddress),
            ("chain", chain), ("onlySmartMoney", onlySmartMoney),
            ("filters", filters), ("orderBy", orderBy), ("pagination", pagination),
            ("days", days)])
        else if subcommand = "pnl" then
          .call "tokenPnlLeaderboard" (vObj [("tokenAddress", tokenAddress),
            ("chain", chain), ("filters", filters), ("orderBy", orderBy),
            ("pagination", pagination), ("days", days)])
        else if subcommand = "who-bought-sold" then
          .call "tokenWhoBoughtSold" (vObj [("tokenAddress", tokenAddress),
            ("chain", chain), ("filters", filters), ("orderBy", orderBy),
            ("pagination", pagination)])
        else if subcommand = "flow-intelligence" then
          .call "tokenFlowIntelligence" (vObj [("tokenAddress", tokenAddress),
            ("chain", chain), ("filters", filters), ("orderBy", orderBy),
            ("pagination", pagination)])
        else if subcommand = "transfers" then
          .call "tokenTransfers" (vObj [("tokenAddress", tokenAddress),
            ("chain", chain), ("filters", filters), ("orderBy", orderBy),
            ("pagination", pagination), ("days", days)])
        else if subcommand = "jup-dca" then
          .call "tokenJupDca" (vObj [("tokenAddress", tokenAddress),
            ("filters", filters), ("orderBy", orderBy), ("pagination", pagination)])
        else if subcommand = "perp-trades" then
          .call "tokenPerpTrades" (vObj [("tokenSymbol", tokenSymbol),
            ("filters", filters), ("orderBy", orderBy), ("pagination", pagination),
            ("days", days)])
        else if subcommand = "perp-positions" then
          .call "tokenPerpPositions" (vObj [("tokenSymbol", tokenSymbol),
            ("filters", filters), ("orderBy", orderBy), ("pagination", pagination)])
        else if subcommand = "perp-pnl-leaderboard" then
          .call "tokenPerpPnlLeaderboard" (vObj [("tokenSymbol", tokenSymbol),
            ("filters", filters), ("orderBy", orderBy), ("pagination", pagination),
            ("days", days)])
        else if subcommand = "help" then .ret tokenHelpObj
        else .ret (unknownSub subcommand tokenKeys)
      ⟨res, optsAfter⟩

/-- The keys of the portfolio handler map (cli.js lines 464-472), in
insertion order. -/
def portfolioKeys : List String := ["defi", "defi-holdings", "help"]

/-- The portfolio help payload (cli.js lines 467-471). -/
def portfolioHelpObj : JSVal :=
  vObj [("commands", vArr ((["defi", "defi-holdings"] : List String).map vStr)),
        ("description", vStr "Portfolio analytics endpoints"),
        ("example", vStr "nansen portfolio defi --wallet 0x123...")]

/-- The `'portfolio'` handler (cli.js lines 460-479). -/
def portfolioCmd (args : List String) (_flags opts : List (String × JSVal)) :
    HandlerOut :=
  let subcommand := subOf args
  let walletAddress := jsOr (objGet opts "wallet") (objGet opts "address")
  let res : HandlerRes :=
    if subcommand = "defi" then
      .call "portfolioDefiHoldings" (vObj [("walletAddress", walletAddress)])
    else if subcommand = "defi-holdings" then
      .call "portfolioDefiHoldings" (vObj [("walletAddress", walletAddress)])
    else if subcommand = "help" then .ret portfolioHelpObj
    else .ret (unknownSub subcommand portfolioKeys)
  ⟨res, opts⟩

example : (smartMoneyCmd ["netflow"] []
    [("chain", vStr "ethereum"), ("limit", vInt 10)]).result
  = .call "smartMoneyNetflow" (vObj [("chains", vArr [vStr "ethereum"]),
      ("filters", vObj []), ("orderBy", vUndef),
      ("pagination", vObj [("page", vInt 1), ("per_page", vInt 10)])]) := rfl

example : (smartMoneyCmd ["netflow"] [] [("labels", vStr "Fund")]).result
  = .call "smartMoneyNetflow" (vObj [("chains", vArr [vStr "solana"]),
      ("filters", vObj [("include_smart_money_labels", vArr [vStr "Fund"])]),
      ("orderBy", vUndef), ("pagination", vUndef)]) := rfl

example : (smartMoneyCmd ["bogus"] [] []).result
  = .ret (unknownSub "bogus" smKeys) := rfl

example : (profilerCmd ["balance"] []
    [("address", vStr "0x123"), ("chain", vStr "ethereum")]).result
  = .call "addressBalance" (vObj [("address", vStr "0x123"),
      ("entityName", vUndef), ("chain", vStr "ethereum"), ("filters", vObj []),
      ("orderBy", vUndef)]) := rfl

example : (tokenCmd ["screener"] [("smart-money", vBool true)] []).result
  = .call "tokenScreener" (vObj [("chains", vArr [vStr "solana"]),
      ("timeframe", vStr "24h"),
      ("filters", vObj [("only_smart_money", vBool true)]), ("orderBy", vUndef),
      ("pagination", vUndef)]) := rfl

example : (portfolioCmd ["defi"] [] [("wallet", vStr "0xdef")]).result
  = .call "portfolioDefiHoldings" (vObj [("walletAddress", vStr "0xdef")]) := rfl

example : (smartMoneyCmd ["netflow"] []
    [("filters", vObj []), ("labels", vStr "Fund")]).optionsAfter
  = [("filters", vObj [("include_smart_money_labels", vArr [vStr "Fund"])]),
     ("labels", vStr "Fund")] := rfl

/-!  The command router (`runCLI`, src/src/cli.js lines 487-546). -/

/-- The keys of the command map built by `buildCommands` (cli.js
lines 293-480), in insertion order. -/
def commandNames : List String :=
  ["login", "logout", "help", "smart-money", "profiler", "token", "portfolio"]

/-- `NO_AUTH_COMMANDS` (cli.js line 484). -/
def noAuthCommands : List String := ["login", "logout", "help"]

/-- The four API-dispatching command families. -/
def apiFamilies : List String := ["smart-money", "profiler", "token", "portfolio"]

/-- `positional[0] || 'help'` (cli.js line 498). -/
def resolvedCommand (p : ParsedArgs) : String :=
  match p.pos.head? with
  | some s => if s = "" then "help" else s
  | none => "help"

/-- Dispatch to a family handler (the `commands[command](...)` call of cli.js
line 534, for the four API families). -/
def dispatchFamily (command : String) (subArgs : List String)
    (flags opts : List (String × JSVal)) : HandlerOut :=
  if command = "smart-money" then smartMoneyCmd subArgs flags opts
  else if command = "profiler" then profilerCmd subArgs flags opts
  else if command = "token" then tokenCmd subArgs flags opts
  else portfolioCmd subArgs flags opts

/-- The observable outcome of one `runCLI` invocation.

* `otype` is the `type` field of the source's return value
  (`help` / `error` / `no-auth` / `success`).
* `retryMax` is the `maxRetries` value inside the `{ retry: ... }` options
  passed to the `NansenAPI` constructor, `vUndef` when no client was built.
* `handlerRes` is what the family handler did (absent when no family handler
  ran; the interactive login/logout handlers are external collaborators and
  are not modelled beyond their no-auth classification).
* `envelope` is the JSON value printed: the `{success:true, data}` wrapper on
  a handler value, the `{error, available}` payload on an unknown command, or
  the `formatError` shape when the handler threw.  When the handler issued an
  API call the envelope depends on the network response, which is external,
  so it is left `vUndef`.
* `exited` is the argument of the `exit` call, when one was made. -/
structure RunOutcome where
  otype : String
  retryMax : JSVal
  handlerRes : Option HandlerRes
  envelope : JSVal
  exited : Option Nat
  optionsAfter : List (String × JSVal)

/-- `runCLI` from src/src/cli.js lines 487-546. -/
def runCLI (rawArgs : List String) : RunOutcome :=
  let p := parseArgs rawArgs
  let command := resolvedCommand p
  let subArgs := p.pos.drop 1
  if command = "help" ∨ jsTruthy (objGet p.flags "help") = true
      ∨ jsTruthy (objGet p.flags "h") = true then
    ⟨"help", vUndef, none, vUndef, none, p.options⟩
  else if command ∈ commandNames then
    if command ∈ noAuthCommands then
      ⟨"no-auth", vUndef, none, vUndef, none, p.options⟩
    else
      let retryMax :=
        if jsTruthy (objGet p.flags "no-retry") then vInt 0
        else jsOr (objGet p.options "retries") (vInt 3)
      let h := dispatchFamily command subArgs p.flags p.options
      match h.result with
      | .thrown msg =>
          ⟨"error", retryMax, some (.thrown msg),
            vObj [("success", vBool false), ("error", vStr msg),
                  ("code", vStr "UNKNOWN"), ("status", vNull),
                  ("details", vNull)],
            some 1, h.optionsAfter⟩
      | .ret v =>
          ⟨"success", retryMax, some (.ret v),
            vObj [("success", vBool true), ("data", v)], none, h.optionsAfter⟩
      | .call m payload =>
          ⟨"success", retryMax, some (.call m payload), vUndef, none,
            h.optionsAfter⟩
  else
    ⟨"error", vUndef, none,
      vObj [("error", vStr ("Unknown command: " ++ command)),
            ("available", vArr (commandNames.map vStr))],
      some 1, p.options⟩

example : (runCLI []).otype = "help" := rfl
example : (runCLI ["--help"]).otype = "help" := rfl
example : (runCLI ["-h"]).otype = "help" := rfl
example : (runCLI ["help"]).otype = "help" := rfl
example : (runCLI ["unknown-cmd"]).otype = "error" := rfl
example : (runCLI ["unknown-cmd"]).exited = some 1 := rfl
example : (runCLI ["login"]).otype = "no-auth" := rfl
example : (runCLI ["smart-money", "netflow", "--no-retry"]).retryMax = vInt 0 := rfl
example : (runCLI ["smart-money", "netflow", "--retries", "5"]).retryMax = vInt 5 := rfl
example : (runCLI ["smart-money", "netflow"]).retryMax = vInt 3 := rfl
example : (runCLI ["smart-money", "netflow", "--retries", "0"]).retryMax = vInt 3 := rfl
example : (runCLI ["smart-money", "bogus"]).envelope
  = vObj [("success", vBool true), ("data", unknownSub "bogus" smKeys)] := rfl
example : (runCLI ["smart-money", "bogus"]).exited = none := rfl

/-- An invocation is API-dispatching when the router neither prints help nor
rejects the command, and the command is one of the four API families (so an
HTTP client is constructed before the handler runs). -/
def dispatchesAPI (rawArgs : List String) : Prop :=
  ¬(resolvedCommand (parseArgs rawArgs) = "help"
      ∨ jsTruthy (objGet (parseArgs rawArgs).flags "help") = true
      ∨ jsTruthy (objGet (parseArgs rawArgs).flags "h") = true)
  ∧ resolvedCommand (parseArgs rawArgs) ∈ apiFamilies

/-- The handler-map keys of a family (`Object.keys(handlers)`). -/
def familyKeys (f : String) : List String :=
  if f = "smart-money" then smKeys
  else if f = "profiler" then profilerKeys
  else if f = "token" then tokenKeys
  else portfolioKeys

/-!  The claims. -/

/-- Claim C9: `formatValue` maps null and undefined to the empty string; a
number with absolute value at least 1,000,000 to its value divided by
1,000,000 rendered with two decimal places plus `M`; a number with absolute
value at least 1,000 to its value divided by 1,000 with two decimals plus
`K`; a remaining integer to its plain decimal string; any other number to two
decimal places; an object to its compact JSON; anything else to its string
conversion — in particular `formatValue(1500000) = '1.50M'`,
`formatValue(-1500) = '-1.50K'`, `formatValue(42) = '42'`,
`formatValue(3.14159) = '3.14'`. -/
theorem c9_formatValue_spec :
    (formatValue vNull = "" ∧ formatValue vUndef = "")
  ∧ (∀ q : DecNum, decAbsGe q 1000000 = true →
      formatValue (vNum q) = jsToFixed2 (decDivPow10 q 6) ++ "M")
  ∧ (∀ q : DecNum, decAbsGe q 1000000 = false → decAbsGe q 1000 = true →
      formatValue (vNum q) = jsToFixed2 (decDivPow10 q 3) ++ "K")
  ∧ (∀ q : DecNum, decAbsGe q 1000000 = false → decAbsGe q 1000 = false →
      decIsInt q = true → formatValue (vNum q) = q.m.repr)
  ∧ (∀ q : DecNum, decAbsGe q 1000000 = false → decAbsGe q 1000 = false →
      decIsInt q = false → formatValue (vNum q) = jsToFixed2 q)
  ∧ (∀ fs, formatValue (vObj fs) = jsonStringify (vObj fs))
  ∧ (∀ xs, formatValue (vArr xs) = jsonStringify (vArr xs))
  ∧ (∀ b, formatValue (vBool b) = if b then "true" else "false")
  ∧ (∀ s, formatValue (vStr s) = s)
  ∧ formatValue (vInt 1500000) = "1.50M"
  ∧ formatValue (vInt (-1500)) = "-1.50K"
  ∧ formatValue (vInt 42) = "42"
  ∧ formatValue (vNum ⟨314159, 5⟩) = "3.14" := by
  refine ⟨⟨rfl, rfl⟩, ?_, ?_, ?_, ?_, fun _ => rfl, fun _ => rfl,
    fun _ => rfl, fun _ => rfl, rfl, rfl, rfl, rfl⟩
  · intro q h; simp [formatValue, h]
  · intro q h1 h2; simp [formatValue, h1, h2]
  · intro q h1 h2 h3; simp [formatValue, h1, h2, h3]
  · intro q h1 h2 h3; simp [formatValue, h1, h2, h3]

/-- Witness for C9 at concrete inputs. -/
theorem c9_formatValue_spec_witness :
    formatValue (vInt 2500000) = jsToFixed2 (decDivPow10 ⟨2500000, 0⟩ 6) ++ "M"
  ∧ formatValue (vInt 5000) = jsToFixed2 (decDivPow10 ⟨5000, 0⟩ 3) ++ "K"
  ∧ formatValue (vInt 42) = (42 : ℤ).repr
  ∧ formatValue (vNum ⟨25, 1⟩) = jsToFixed2 ⟨25, 1⟩ := by
  refine ⟨c9_formatValue_spec.2.1 ⟨2500000, 0⟩ (by decide),
    c9_formatValue_spec.2.2.1 ⟨5000, 0⟩ (by decide) (by decide),
    c9_formatValue_spec.2.2.2.1 ⟨42, 0⟩ (by decide) (by decide) (by decide),
    c9_formatValue_spec.2.2.2.2.1 ⟨25, 1⟩ (by decide) (by decide) (by decide)⟩

/-- Claim C6 could not hold as stated: `parseSort` tests its arguments with
JS truthiness, not presence.  A present but empty sort string yields
`undefined` instead of being split. -/
theorem c6_counterexample :
    parseSort (vStr "") vUndef = .ok vUndef
  ∧ Except.ok (ε := String) vUndef
      ≠ .ok (vArr [vObj [("field", vStr ""), ("direction", vStr "DESC")]])
  ∧ parseSort (vStr "timestamp") (vInt 0)
      = .ok (vArr [vObj [("field", vStr "timestamp"), ("direction", vStr "DESC")]])
  ∧ Except.ok (ε := String)
      (vArr [vObj [("field", vStr "timestamp"), ("direction", vStr "DESC")]])
      ≠ .ok (vInt 0) := by
  refine ⟨rfl, by simp, rfl, by simp [vInt]⟩

/-- Claim C6 (amended): `parseSort` returns the order-by argument unchanged
when it is truthy; otherwise returns undefined when the sort option is absent
or falsy (in particular the empty string); otherwise splits the sort string
on `:`, uppercases the direction, defaults the direction to `DESC` when
omitted or empty, and returns `[{field, direction}]`; in particular
`parseSort('value_usd:asc', undefined) = [{field:'value_usd',
direction:'ASC'}]` and `parseSort('timestamp', undefined) =
[{field:'timestamp', direction:'DESC'}]`. -/
theorem c6_parseSort_amended :
    (∀ so ob : JSVal, jsTruthy ob = true → parseSort so ob = .ok ob)
  ∧ (∀ so ob : JSVal, jsTruthy so = false → jsTruthy ob = false →
      parseSort so ob = .ok vUndef)
  ∧ (∀ (s : String) (ob : JSVal), s ≠ "" → jsTruthy ob = false →
      parseSort (vStr s) ob
        = .ok (vArr [vObj
            [("field", vStr (match (splitChar ':' s).head? with
                | some f => f
                | none => "")),
             ("direction", vStr (strToUpper
                (match splitChar ':' s with
                 | _ :: d :: _ => if d = "" then "desc" else d
                 | _ => "desc")))]]))
  ∧ parseSort (vStr "value_usd:asc") vUndef
      = .ok (vArr [vObj [("field", vStr "value_usd"), ("direction", vStr "ASC")]])
  ∧ parseSort (vStr "timestamp") vUndef
      = .ok (vArr [vObj [("field", vStr "timestamp"), ("direction", vStr "DESC")]]) := by
  refine ⟨?_, ?_, ?_, rfl, rfl⟩
  · intro so ob h; simp [parseSort, h]
  · intro so ob h1 h2; simp [parseSort, h1, h2]
  · intro s ob hs hob
    have hts : jsTruthy (vStr s) = true := by simp [jsTruthy, hs]
    simp only [parseSort, hob, hts]
    simp only [Bool.false_eq_true, if_false, Bool.true_eq_false, reduceIte]
    cases hsp : splitChar ':' s with
    | nil => simp
    | cons a t =>
        cases t with
        | nil => simp
        | cons d t2 => by_cases hd : d = "" <;> simp [hd]

/-- Witness for C6 at concrete inputs. -/
theorem c6_parseSort_amended_witness :
    parseSort (vStr "x") (vArr [vInt 1]) = .ok (vArr [vInt 1])
  ∧ parseSort vUndef vUndef = .ok vUndef
  ∧ parseSort (vStr "value_usd:asc") vNull
      = .ok (vArr [vObj [("field", vStr (match (splitChar ':' "value_usd:asc").head? with
          | some f => f
          | none => "")),
          ("direction", vStr (strToUpper (match splitChar ':' "value_usd:asc" with
            | _ :: d :: _ => if d = "" then "desc" else d
            | _ => "desc")))]]) := by
  refine ⟨c6_parseSort_amended.1 (vStr "x") (vArr [vInt 1]) rfl,
    c6_parseSort_amended.2.1 vUndef vUndef rfl rfl,
    c6_parseSort_amended.2.2.1 "value_usd:asc" vNull (by decide) rfl⟩

/-- Claim C10: when `--N` is immediately followed by a token starting with
`-` (for example a negative number such as `-5`), `parseArgs` records
`flags[N] = true` without consuming the following token, which is then
processed as its own flag, so no option value is recorded for `N` by this
pair — negative numbers cannot be passed as option values. -/
theorem c10_dash_value_not_consumed :
    (∀ (t nxt : String) (rest : List String) (r : ParsedArgs),
      strStartsWith t "--" = true → strStartsWith nxt "-" = true →
      parseArgsGo (t :: nxt :: rest) r
        = parseArgsGo (nxt :: rest)
            { r with flags := setKey r.flags (strDrop t 2) (vBool true) })
  ∧ parseArgs ["--limit", "-5"]
      = ⟨[], [("limit", vBool true), ("5", vBool true)], []⟩
  ∧ (parseArgs ["--limit", "-5"]).options.lookup "limit" = none := by
  refine ⟨?_, rfl, rfl⟩
  intro t nxt rest r h1 h2
  have hne : nxt ≠ "" := by
    intro h
    rw [h] at h2
    simp [strStartsWith] at h2
  simp only [parseArgsGo, h1, if_true]
  by_cases hk : strDrop t 2 ∈ pureBoolFlags
  · simp [hk]
  · simp [hk, h2, hne]

/-- Witness for C10 at a concrete input. -/
theorem c10_dash_value_not_consumed_witness :
    parseArgsGo ["--limit", "-5"] ⟨[], [], []⟩
      = parseArgsGo ["-5"]
          { pos := [], flags := setKey [] (strDrop "--limit" 2) (vBool true),
            options := [] } :=
  c10_dash_value_not_consumed.1 "--limit" "-5" [] ⟨[], [], []⟩ rfl rfl

/-- Claim C4 could not hold as stated: the JS truthiness test
`next && !next.startsWith('-')` makes an empty following token falsy, so
`--chain ""` records the flag `chain` and pushes the empty token to the
positional list instead of recording `options.chain = ""`. -/
theorem c4_counterexample :
    parseArgs ["--chain", ""] = ⟨[""], [("chain", vBool true)], []⟩
  ∧ (parseArgs ["--chain", ""]).options.lookup "chain" = none := ⟨rfl, rfl⟩

/-- Claim C4 (amended): for every token sequence, `parseArgs` is total and:
a fixed boolean flag name given as `--name` maps to `flags[name] = true`
without consuming the following token; `--name` followed by a non-empty
token not starting with `-` maps to `options[name]` holding the JSON-parsed
value when parseable, else the raw string; `--name` at end of input, or
followed by an empty token or a `-`-prefixed token, maps to
`flags[name] = true`; a single-dash token records
`flags[name-without-dash] = true`; every other token (including the empty
token) is appended to the positional sequence in input order. -/
theorem c4_parseArgs_characterization :
    (∀ args, parseArgs args = parseArgsGo args ⟨[], [], []⟩)
  ∧ (∀ (t : String) (rest : List String) (r : ParsedArgs),
      strStartsWith t "--" = true → strDrop t 2 ∈ pureBoolFlags →
      parseArgsGo (t :: rest) r
        = parseArgsGo rest { r with flags := setKey r.flags (strDrop t 2) (vBool true) })
  ∧ (∀ (t nxt : String) (rest : List String) (r : ParsedArgs),
      strStartsWith t "--" = true → strDrop t 2 ∉ pureBoolFlags →
      nxt ≠ "" → strStartsWith nxt "-" = false →
      parseArgsGo (t :: nxt :: rest) r
        = parseArgsGo rest
            { r with options := setKey r.options (strDrop t 2) (jsonOrRaw nxt) })
  ∧ (∀ (t : String) (r : ParsedArgs), strStartsWith t "--" = true →
      parseArgsGo [t] r = { r with flags := setKey r.flags (strDrop t 2) (vBool true) })
  ∧ (∀ (t nxt : String) (rest : List String) (r : ParsedArgs),
      strStartsWith t "--" = true → (nxt = "" ∨ strStartsWith nxt "-" = true) →
      parseArgsGo (t :: nxt :: rest) r
        = parseArgsGo (nxt :: rest)
            { r with flags := setKey r.flags (strDrop t 2) (vBool true) })
  ∧ (∀ (t : String) (rest : List String) (r : ParsedArgs),
      strStartsWith t "--" = false → strStartsWith t "-" = true →
      parseArgsGo (t :: rest) r
        = parseArgsGo rest { r with flags := setKey r.flags (strDrop t 1) (vBool true) })
  ∧ (∀ (t : String) (rest : List String) (r : ParsedArgs),
      strStartsWith t "--" = false → strStartsWith t "-" = false →
      parseArgsGo (t :: rest) r = parseArgsGo rest { r with pos := r.pos ++ [t] })
  ∧ jsonOrRaw "10" = vInt 10
  ∧ jsonOrRaw "solana" = vStr "solana"
  ∧ parseArgs ["token", "screener", "--chain", "solana", "--pretty", "--limit", "5"]
      = ⟨["token", "screener"], [("pretty", vBool true)],
         [("chain", vStr "solana"), ("limit", vInt 5)]⟩ := by
  refine ⟨fun _ => rfl, ?_, ?_, ?_, ?_, ?_, ?_, rfl, rfl, rfl⟩
  · intro t rest r h1 h2
    cases rest with
    | nil => simp [parseArgsGo, h1, h2]
    | cons a l => simp [parseArgsGo, h1, h2]
  · intro t nxt rest r h1 h2 h3 h4
    simp [parseArgsGo, h1, h2, h3, h4]
  · intro t r h1
    simp [parseArgsGo, h1]
  · intro t nxt rest r h1 h2
    simp only [parseArgsGo, h1, if_true]
    by_cases hk : strDrop t 2 ∈ pureBoolFlags
    · simp [hk]
    · rcases h2 with h2 | h2
      · simp [hk, h2]
      · have hne : nxt ≠ "" := by
          intro h
          rw [h] at h2
          simp [strStartsWith] at h2
        simp [hk, h2, hne]
  · intro t rest r h1 h2
    cases rest with
    | nil => simp [parseArgsGo, h1, h2]
    | cons a l => simp [parseArgsGo, h1, h2]
  · intro t rest r h1 h2
    cases rest with
    | nil => simp [parseArgsGo, h1, h2]
    | cons a l => simp [parseArgsGo, h1, h2]

/-- Witness for C4 at concrete inputs. -/
theorem c4_parseArgs_characterization_witness :
    parseArgsGo ["--pretty", "x"] ⟨[], [], []⟩
      = parseArgsGo ["x"]
          { pos := [], flags := setKey [] (strDrop "--pretty" 2) (vBool true),
            options := [] }
  ∧ parseArgsGo ["--chain", "solana"] ⟨[], [], []⟩
      = parseArgsGo []
          { pos := [], flags := [],
            options := setKey [] (strDrop "--chain" 2) (jsonOrRaw "solana") }
  ∧ parseArgsGo ["--verbose"] ⟨[], [], []⟩
      = { pos := [], flags := setKey [] (strDrop "--verbose" 2) (vBool true),
          options := ([] : List (String × JSVal)) }
  ∧ parseArgsGo ["-p"] ⟨[], [], []⟩
      = parseArgsGo []
          { pos := [], flags := setKey [] (strDrop "-p" 1) (vBool true),
            options := [] }
  ∧ parseArgsGo ["tok"] ⟨[], [], []⟩
      = parseArgsGo [] { pos := [] ++ ["tok"], flags := [], options := [] } := by
  refine ⟨c4_parseArgs_characterization.2.1 "--pretty" ["x"] ⟨[], [], []⟩ rfl (by decide),
    c4_parseArgs_characterization.2.2.1 "--chain" "solana" [] ⟨[], [], []⟩ rfl
      (by decide) (by decide) rfl,
    c4_parseArgs_characterization.2.2.2.1 "--verbose" ⟨[], [], []⟩ rfl,
    c4_parseArgs_characterization.2.2.2.2.2.1 "-p" [] ⟨[], [], []⟩ rfl rfl,
    c4_parseArgs_characterization.2.2.2.2.2.2.1 "tok" [] ⟨[], [], []⟩ rfl rfl⟩

/-- Claim C5 could not hold as stated: `options.limit ? {...} : undefined` is
a JS truthiness test, so `--limit 0` (present but falsy) produces no
pagination object instead of `{page: 1, per_page: 0}`. -/
theorem c5_counterexample :
    (smartMoneyCmd ["netflow"] []
        [("chain", vStr "ethereum"), ("limit", vInt 0)]).result
      = .call "smartMoneyNetflow" (vObj [("chains", vArr [vStr "ethereum"]),
          ("filters", vObj []), ("orderBy", vUndef), ("pagination", vUndef)])
  ∧ (vUndef : JSVal) ≠ vObj [("page", vInt 1), ("per_page", vInt 0)] :=
  ⟨rfl, by simp⟩

/-- Claim C5 (amended): with `--limit` present and truthy, the smart-money
and token handlers build pagination `{page: 1, per_page: limit}` while the
profiler handler builds `{page: 1, recordsPerPage: limit}`; with `--limit`
absent or falsy (such as 0), pagination is undefined; in particular the
smart-money netflow handler with `{chain:'ethereum', limit:10}` calls the API
with `chains:['ethereum']`, `filters:{}`, `orderBy:undefined`,
`pagination:{page:1, per_page:10}`. -/
theorem c5_pagination_amended :
    (∀ limit : JSVal, jsTruthy limit = true →
      (smartMoneyCmd ["netflow"] []
          [("chain", vStr "ethereum"), ("limit", limit)]).result
        = .call "smartMoneyNetflow" (vObj [("chains", vArr [vStr "ethereum"]),
            ("filters", vObj []), ("orderBy", vUndef),
            ("pagination", vObj [("page", vInt 1), ("per_page", limit)])]))
  ∧ (∀ limit : JSVal, jsTruthy limit = true →
      (profilerCmd ["labels"] []
          [("address", vStr "0xabc"), ("limit", limit)]).result
        = .call "addressLabels" (vObj [("address", vStr "0xabc"),
            ("chain", vStr "ethereum"),
            ("pagination", vObj [("page", vInt 1), ("recordsPerPage", limit)])]))
  ∧ (∀ limit : JSVal, jsTruthy limit = true →
      (tokenCmd ["holders"] []
          [("token", vStr "0xT"), ("limit", limit)]).result
        = .call "tokenHolders" (vObj [("tokenAddress", vStr "0xT"),
            ("chain", vStr "solana"), ("filters", vObj []),
            ("orderBy", vUndef),
            ("pagination", vObj [("page", vInt 1), ("per_page", limit)])]))
  ∧ (smartMoneyCmd ["netflow"] [] [("chain", vStr "ethereum")]).result
      = .call "smartMoneyNetflow" (vObj [("chains", vArr [vStr "ethereum"]),
          ("filters", vObj []), ("orderBy", vUndef), ("pagination", vUndef)])
  ∧ (smartMoneyCmd ["netflow"] []
        [("chain", vStr "ethereum"), ("limit", vInt 10)]).result
      = .call "smartMoneyNetflow" (vObj [("chains", vArr [vStr "ethereum"]),
          ("filters", vObj []), ("orderBy", vUndef),
          ("pagination", vObj [("page", vInt 1), ("per_page", vInt 10)])]) := by
  refine ⟨?_, ?_, ?_, rfl, rfl⟩
  · intro limit h
    simp [jsTruthy] at h
    simp [smartMoneyCmd, subOf, objGet, List.lookup, jsOr, parseSort, jsTruthy, h]
  · intro limit h
    simp [jsTruthy] at h
    simp [profilerCmd, subOf, objGet, List.lookup, jsOr, parseSort, jsTruthy, h]
  · intro limit h
    simp [jsTruthy] at h
    simp [tokenCmd, subOf, objGet, List.lookup, jsOr, parseSort, jsTruthy, h]

/-- Witness for C5 at a concrete truthy limit. -/
theorem c5_pagination_amended_witness :
    (smartMoneyCmd ["netflow"] []
        [("chain", vStr "ethereum"), ("limit", vInt 7)]).result
      = .call "smartMoneyNetflow" (vObj [("chains", vArr [vStr "ethereum"]),
          ("filters", vObj []), ("orderBy", vUndef),
          ("pagination", vObj [("page", vInt 1), ("per_page", vInt 7)])])
  ∧ (profilerCmd ["labels"] []
        [("address", vStr "0xabc"), ("limit", vInt 7)]).result
      = .call "addressLabels" (vObj [("address", vStr "0xabc"),
          ("chain", vStr "ethereum"),
          ("pagination", vObj [("page", vInt 1), ("recordsPerPage", vInt 7)])]) :=
  ⟨c5_pagination_amended.1 (vInt 7) (by decide),
   c5_pagination_amended.2.1 (vInt 7) (by decide)⟩

/-- Claim C7 could not hold as stated: a `--labels` value is folded into the
object held in `options.filters` in place, so the parsed options are mutated
after `parseArgs` returns. -/
theorem c7_counterexample :
    (smartMoneyCmd ["netflow"] []
        [("filters", vObj []), ("labels", vStr "Fund")]).optionsAfter
      = [("filters", vObj [("include_smart_money_labels", vArr [vStr "Fund"])]),
         ("labels", vStr "Fund")]
  ∧ (smartMoneyCmd ["netflow"] []
        [("filters", vObj []), ("labels", vStr "Fund")]).optionsAfter
      ≠ [("filters", vObj []), ("labels", vStr "Fund")] := by
  refine ⟨rfl, ?_⟩
  rw [show (smartMoneyCmd ["netflow"] []
      [("filters", vObj []), ("labels", vStr "Fund")]).optionsAfter
    = [("filters", vObj [("include_smart_money_labels", vArr [vStr "Fund"])]),
       ("labels", vStr "Fund")] from rfl]
  simp

/-- Claim C7 (amended): the positional list and flags are never modified, and
the profiler and portfolio handlers leave the parsed options entirely
unchanged; but the smart-money handler mutates the object referenced by
`options.filters` (folding a truthy `--labels` into
`filters.include_smart_money_labels`), and the token handler mutates it
(setting `filters.only_smart_money` when `--smart-money` is given); when
`--filters` was not passed, or the deriving option/flag is falsy, the parsed
options are unchanged. -/
theorem c7_options_mutation_amended :
    (∀ args flags opts, (profilerCmd args flags opts).optionsAfter = opts)
  ∧ (∀ args flags opts, (portfolioCmd args flags opts).optionsAfter = opts)
  ∧ (∀ args flags opts, jsTruthy (objGet opts "labels") = false →
      (smartMoneyCmd args flags opts).optionsAfter = opts)
  ∧ (∀ args flags opts, jsTruthy (objGet opts "filters") = false →
      (smartMoneyCmd args flags opts).optionsAfter = opts)
  ∧ (∀ args flags opts, jsTruthy (objGet opts "smart-money") = false →
      jsTruthy (objGet flags "smart-money") = false →
      (tokenCmd args flags opts).optionsAfter = opts)
  ∧ (∀ args flags opts, jsTruthy (objGet opts "filters") = false →
      (tokenCmd args flags opts).optionsAfter = opts)
  ∧ (smartMoneyCmd ["netflow"] []
        [("filters", vObj []), ("labels", vStr "Fund")]).optionsAfter
      = [("filters", vObj [("include_smart_money_labels", vArr [vStr "Fund"])]),
         ("labels", vStr "Fund")]
  ∧ (tokenCmd ["screener"] [("smart-money", vBool true)]
        [("filters", vObj [])]).optionsAfter
      = [("filters", vObj [("only_smart_money", vBool true)])] := by
  refine ⟨?_, ?_, ?_, ?_, ?_, ?_, rfl, rfl⟩
  · intro args flags opts
    cases hps : parseSort (objGet opts "sort") (objGet opts "order-by") with
    | error e => simp [profilerCmd, hps]
    | ok ob => simp [profilerCmd, hps]
  · intro args flags opts
    simp [portfolioCmd]
  · intro args flags opts h
    cases hps : parseSort (objGet opts "sort") (objGet opts "order-by") with
    | error e => simp [smartMoneyCmd, hps]
    | ok ob => simp [smartMoneyCmd, hps, h]
  · intro args flags opts h
    cases hps : parseSort (objGet opts "sort") (objGet opts "order-by") with
    | error e => simp [smartMoneyCmd, hps]
    | ok ob =>
        by_cases hl : jsTruthy (objGet opts "labels") = true
        · simp [smartMoneyCmd, hps, hl, h, jsOr, jsSetPropE, Except.map]
        · simp at hl
          simp [smartMoneyCmd, hps, hl]
  · intro args flags opts h1 h2
    cases hps : parseSort (objGet opts "sort") (objGet opts "order-by") with
    | error e => simp [tokenCmd, hps]
    | ok ob =>
        have hsm : jsOr (objGet opts "smart-money")
            (jsOr (objGet flags "smart-money") (vBool false)) = vBool false := by
          simp [jsOr, h1, h2]
        simp [tokenCmd, hps, hsm, show jsTruthy (vBool false) = false from rfl]
  · intro args flags opts h
    cases hps : parseSort (objGet opts "sort") (objGet opts "order-by") with
    | error e => simp [tokenCmd, hps]
    | ok ob =>
        by_cases hsm : jsTruthy (jsOr (objGet opts "smart-money")
            (jsOr (objGet flags "smart-money") (vBool false))) = true
        · have hf0 : jsOr (objGet opts "filters") (vObj []) = vObj [] := by
            simp [jsOr, h]
          simp [tokenCmd, hps, hsm, h, hf0, jsSetPropE, Except.map]
        · simp at hsm
          simp [tokenCmd, hps, hsm]

/-- Witness for C7 at concrete inputs. -/
theorem c7_options_mutation_amended_witness :
    (profilerCmd ["balance"] [] [("address", vStr "0xabc")]).optionsAfter
      = [("address", vStr "0xabc")]
  ∧ (smartMoneyCmd ["netflow"] [] [("chain", vStr "solana")]).optionsAfter
      = [("chain", vStr "solana")]
  ∧ (smartMoneyCmd ["netflow"] [] [("labels", vStr "Fund")]).optionsAfter
      = [("labels", vStr "Fund")]
  ∧ (tokenCmd ["screener"] [] [("chain", vStr "solana")]).optionsAfter
      = [("chain", vStr "solana")] := by
  refine ⟨c7_options_mutation_amended.1 ["balance"] [] [("address", vStr "0xabc")],
    c7_options_mutation_amended.2.2.1 ["netflow"] [] [("chain", vStr "solana")]
      (by decide),
    c7_options_mutation_amended.2.2.2.1 ["netflow"] [] [("labels", vStr "Fund")]
      (by decide),
    c7_options_mutation_amended.2.2.2.2.1 ["screener"] [] [("chain", vStr "solana")]
      (by decide) (by decide)⟩

/-- Claim C1 could not hold as stated: no address-shape validation exists in
the handlers.  With an address that is invalid for the target chain, the
profiler balance handler does not fail fast — it calls the API instance
method, passing the address through unchanged. -/
theorem c1_counterexample :
    specAddressValid "ethereum" "zz" = false
  ∧ (profilerCmd ["balance"] []
        [("address", vStr "zz"), ("chain", vStr "ethereum")]).result
      = .call "addressBalance" (vObj [("address", vStr "zz"),
          ("entityName", vUndef), ("chain", vStr "ethereum"),
          ("filters", vObj []), ("orderBy", vUndef)]) := ⟨rfl, rfl⟩

/-- Claim C1 (amended): the profiler and token handlers perform no
address-shape validation.  For every address whose shape is invalid for the
target chain (per the spec's EVM / Solana Base58 formats), the handler still
calls the API instance method with the address passed through unchanged; no
validation error is raised before the call. -/
theorem c1_no_address_validation :
    (∀ addr : String, specAddressValid "ethereum" addr = false →
      (profilerCmd ["balance"] []
          [("address", vStr addr), ("chain", vStr "ethereum")]).result
        = .call "addressBalance" (vObj [("address", vStr addr),
            ("entityName", vUndef), ("chain", vStr "ethereum"),
            ("filters", vObj []), ("orderBy", vUndef)]))
  ∧ (∀ addr : String, addr ≠ "" → specAddressValid "ethereum" addr = false →
      (tokenCmd ["holders"] []
          [("token", vStr addr), ("chain", vStr "ethereum")]).result
        = .call "tokenHolders" (vObj [("tokenAddress", vStr addr),
            ("chain", vStr "ethereum"), ("filters", vObj []),
            ("orderBy", vUndef), ("pagination", vUndef)]))
  ∧ (∀ addr : String, specAddressValid "solana" addr = false →
      (smartMoneyCmd ["netflow"] []
          [("chain", vStr "solana"), ("chains", vArr [vStr "solana"]),
           ("address", vStr addr)]).result
        = .call "smartMoneyNetflow" (vObj [("chains", vArr [vStr "solana"]),
            ("filters", vObj []), ("orderBy", vUndef),
            ("pagination", vUndef)])) := by
  refine ⟨?_, ?_, ?_⟩
  · intro addr _
    rfl
  · intro addr hne _
    simp [tokenCmd, subOf, objGet, List.lookup, jsOr, parseSort, jsTruthy, hne]
  · intro addr _
    rfl

/-- Witness for C1 at a concrete invalid address. -/
theorem c1_no_address_validation_witness :
    (profilerCmd ["balance"] []
        [("address", vStr "not-an-address"), ("chain", vStr "ethereum")]).result
      = .call "addressBalance" (vObj [("address", vStr "not-an-address"),
          ("entityName", vUndef), ("chain", vStr "ethereum"),
          ("filters", vObj []), ("orderBy", vUndef)])
  ∧ (tokenCmd ["holders"] []
        [("token", vStr "not-an-address"), ("chain", vStr "ethereum")]).result
      = .call "tokenHolders" (vObj [("tokenAddress", vStr "not-an-address"),
          ("chain", vStr "ethereum"), ("filters", vObj []),
          ("orderBy", vUndef), ("pagination", vUndef)]) :=
  ⟨c1_no_address_validation.1 "not-an-address" (by decide),
   c1_no_address_validation.2.1 "not-an-address" (by decide) (by decide)⟩

/-- Claim C2 could not hold as stated: `options.retries || 3` is a JS
truthiness test, so `--retries 0` falls back to the default of 3 instead of
configuring 0 retries. -/
theorem c2_counterexample :
    objGet (parseArgs ["smart-money", "netflow", "--retries", "0"]).options
        "retries" = vInt 0
  ∧ (runCLI ["smart-money", "netflow", "--retries", "0"]).retryMax = vInt 3
  ∧ (vInt 3 : JSVal) ≠ vInt 0 := ⟨rfl, rfl, by simp [vInt]⟩

/-- Claim C2 (amended): for every API-dispatching invocation of `runCLI`, the
HTTP client is constructed with `maxRetries = 0` when the `--no-retry` flag
is present, `maxRetries = n` when `--retries n` is given for an integer
n ≥ 1, and `maxRetries = 3` when neither is given; `--retries 0` is falsy
and also yields the default 3. -/
theorem c2_retry_policy :
    (∀ rawArgs, dispatchesAPI rawArgs →
      jsTruthy (objGet (parseArgs rawArgs).flags "no-retry") = true →
      (runCLI rawArgs).retryMax = vInt 0)
  ∧ (∀ rawArgs, dispatchesAPI rawArgs →
      jsTruthy (objGet (parseArgs rawArgs).flags "no-retry") = false →
      ∀ n : ℤ, n ≠ 0 → objGet (parseArgs rawArgs).options "retries" = vInt n →
      (runCLI rawArgs).retryMax = vInt n)
  ∧ (∀ rawArgs, dispatchesAPI rawArgs →
      jsTruthy (objGet (parseArgs rawArgs).flags "no-retry") = false →
      objGet (parseArgs rawArgs).options "retries" = vUndef →
      (runCLI rawArgs).retryMax = vInt 3)
  ∧ (runCLI ["smart-money", "netflow", "--no-retry"]).retryMax = vInt 0
  ∧ (runCLI ["smart-money", "netflow", "--retries", "5"]).retryMax = vInt 5
  ∧ (runCLI ["smart-money", "netflow"]).retryMax = vInt 3 := by
  have hmem : ∀ c ∈ apiFamilies, c ∈ commandNames ∧ c ∉ noAuthCommands := by
    decide
  have main : ∀ rawArgs, dispatchesAPI rawArgs →
      (runCLI rawArgs).retryMax
        = (if jsTruthy (objGet (parseArgs rawArgs).flags "no-retry") then vInt 0
           else jsOr (objGet (parseArgs rawArgs).options "retries") (vInt 3)) := by
    intro rawArgs hd
    obtain ⟨hnot, hfam⟩ := hd
    obtain ⟨hc, hn⟩ := hmem _ hfam
    rw [runCLI]
    rw [if_neg hnot, if_pos hc, if_neg hn]
    simp only []
    generalize dispatchFamily (resolvedCommand (parseArgs rawArgs))
      ((parseArgs rawArgs).pos.drop 1) (parseArgs rawArgs).flags
      (parseArgs rawArgs).options = d
    obtain ⟨res, oa⟩ := d
    cases res <;> rfl
  refine ⟨?_, ?_, ?_, rfl, rfl, rfl⟩
  · intro rawArgs hd h
    rw [main rawArgs hd, if_pos h]
  · intro rawArgs hd h n hn hr
    rw [main rawArgs hd, if_neg (by simp [h]), hr]
    simp [jsOr, jsTruthy, vInt, hn]
  · intro rawArgs hd h hr
    rw [main rawArgs hd, if_neg (by simp [h]), hr]
    simp [jsOr, jsTruthy]

/-- Witness for C2 at concrete invocations. -/
theorem c2_retry_policy_witness :
    (runCLI ["profiler", "pnl", "--no-retry"]).retryMax = vInt 0
  ∧ (runCLI ["profiler", "pnl", "--retries", "7"]).retryMax = vInt 7
  ∧ (runCLI ["profiler", "pnl"]).retryMax = vInt 3 :=
  ⟨c2_retry_policy.1 ["profiler", "pnl", "--no-retry"]
      ⟨by decide, by decide⟩ (by decide),
   c2_retry_policy.2.1 ["profiler", "pnl", "--retries", "7"]
      ⟨by decide, by decide⟩ (by decide) 7 (by decide) rfl,
   c2_retry_policy.2.2.1 ["profiler", "pnl"]
      ⟨by decide, by decide⟩ (by decide) rfl⟩

/-- Claim C3 could not hold as stated: the empty subcommand name (which is
not in any handler map) falls back to `help` via the JS truthiness test
`args[0] || 'help'`, so the handler returns the help payload, not the
unknown-subcommand object. -/
theorem c3_counterexample :
    (smartMoneyCmd [""] [] []).result = .ret smHelpObj
  ∧ HandlerRes.ret smHelpObj ≠ .ret (unknownSub "" smKeys) := by
  refine ⟨rfl, ?_⟩
  simp [smHelpObj, unknownSub]

/-- Claim C3 (amended): for every family and every non-empty subcommand name
not in that family's handler map, the handler returns
`{error: 'Unknown subcommand: <name>', available: [handler names]}` without
calling any API method; when such a name reaches `runCLI` as the subcommand
token (hence not parsed as a flag), `runCLI` wraps the object in
`{success: true, data: ...}` and does not exit non-zero.  An empty
subcommand token instead falls back to `help`. -/
theorem c3_unknown_subcommand :
    (∀ s, s ≠ "" → s ∉ smKeys →
      (smartMoneyCmd [s] [] []).result = .ret (unknownSub s smKeys))
  ∧ (∀ s, s ≠ "" → s ∉ profilerKeys →
      (profilerCmd [s] [] []).result = .ret (unknownSub s profilerKeys))
  ∧ (∀ s, s ≠ "" → s ∉ tokenKeys →
      (tokenCmd [s] [] []).result = .ret (unknownSub s tokenKeys))
  ∧ (∀ s, s ≠ "" → s ∉ portfolioKeys →
      (portfolioCmd [s] [] []).result = .ret (unknownSub s portfolioKeys))
  ∧ (∀ f s, f ∈ apiFamilies → s ≠ "" → strStartsWith s "--" = false →
      strStartsWith s "-" = false → s ∉ familyKeys f →
      (runCLI [f, s]).envelope
          = vObj [("success", vBool true), ("data", unknownSub s (familyKeys f))]
        ∧ (runCLI [f, s]).otype = "success"
        ∧ (runCLI [f, s]).exited = none) := by
  have hsm : ∀ s, s ≠ "" → s ∉ smKeys →
      (smartMoneyCmd [s] [] []).result = .ret (unknownSub s smKeys) := by
    intro s hs hmem
    simp only [smKeys, List.mem_cons, List.not_mem_nil, or_false, not_or] at hmem
    simp [smartMoneyCmd, subOf, objGet, parseSort, jsTruthy, jsOr, hs, hmem, smKeys]
  have hpr : ∀ s, s ≠ "" → s ∉ profilerKeys →
      (profilerCmd [s] [] []).result = .ret (unknownSub s profilerKeys) := by
    intro s hs hmem
    simp only [profilerKeys, List.mem_cons, List.not_mem_nil, or_false,
      not_or] at hmem
    simp [profilerCmd, subOf, objGet, parseSort, jsTruthy, jsOr, hs, hmem,
      profilerKeys]
  have htk : ∀ s, s ≠ "" → s ∉ tokenKeys →
      (tokenCmd [s] [] []).result = .ret (unknownSub s tokenKeys) := by
    intro s hs hmem
    simp only [tokenKeys, List.mem_cons, List.not_mem_nil, or_false, not_or] at hmem
    simp [tokenCmd, subOf, objGet, parseSort, jsTruthy, jsOr, hs, hmem, tokenKeys]
  have hpf : ∀ s, s ≠ "" → s ∉ portfolioKeys →
      (portfolioCmd [s] [] []).result = .ret (unknownSub s portfolioKeys) := by
    intro s hs hmem
    simp only [portfolioKeys, List.mem_cons, List.not_mem_nil, or_false,
      not_or] at hmem
    simp [portfolioCmd, subOf, objGet, jsTruthy, jsOr, hs, hmem, portfolioKeys]
  refine ⟨hsm, hpr, htk, hpf, ?_⟩
  intro f s hf hs h1 h2 hmem
  simp only [apiFamilies, List.mem_cons, List.not_mem_nil, or_false] at hf
  rcases hf with hf | hf | hf | hf <;> subst hf
  · have hp : parseArgs ["smart-money", s] = ⟨["smart-money", s], [], []⟩ := by
      simp [parseArgs, parseArgsGo, h1, h2,
        show strStartsWith "smart-money" "--" = false from by decide,
        show strStartsWith "smart-money" "-" = false from by decide]
    have hres := hsm s hs (by simpa [familyKeys] using hmem)
    simp [runCLI, hp, resolvedCommand, dispatchFamily, objGet, jsTruthy, jsOr,
      hres, familyKeys, commandNames, noAuthCommands]
  · have hp : parseArgs ["profiler", s] = ⟨["profiler", s], [], []⟩ := by
      simp [parseArgs, parseArgsGo, h1, h2,
        show strStartsWith "profiler" "--" = false from by decide,
        show strStartsWith "profiler" "-" = false from by decide]
    have hres := hpr s hs (by simpa [familyKeys] using hmem)
    simp [runCLI, hp, resolvedCommand, dispatchFamily, objGet, jsTruthy, jsOr,
      hres, familyKeys, commandNames, noAuthCommands]
  · have hp : parseArgs ["token", s] = ⟨["token", s], [], []⟩ := by
      simp [parseArgs, parseArgsGo, h1, h2,
        show strStartsWith "token" "--" = false from by decide,
        show strStartsWith "token" "-" = false from by decide]
    have hres := htk s hs (by simpa [familyKeys] using hmem)
    simp [runCLI, hp, resolvedCommand, dispatchFamily, objGet, jsTruthy, jsOr,
      hres, familyKeys, commandNames, noAuthCommands]
  · have hp : parseArgs ["portfolio", s] = ⟨["portfolio", s], [], []⟩ := by
      simp [parseArgs, parseArgsGo, h1, h2,
        show strStartsWith "portfolio" "--" = false from by decide,
        show strStartsWith "portfolio" "-" = false from by decide]
    have hres := hpf s hs (by simpa [familyKeys] using hmem)
    simp [runCLI, hp, resolvedCommand, dispatchFamily, objGet, jsTruthy, jsOr,
      hres, familyKeys, commandNames, noAuthCommands]

/-- Witness for C3 at a concrete unknown subcommand. -/
theorem c3_unknown_subcommand_witness :
    (smartMoneyCmd ["bogus"] [] []).result = .ret (unknownSub "bogus" smKeys)
  ∧ (portfolioCmd ["bogus"] [] []).result = .ret (unknownSub "bogus" portfolioKeys)
  ∧ ((runCLI ["token", "bogus"]).envelope
        = vObj [("success", vBool true),
                ("data", unknownSub "bogus" (familyKeys "token"))]
      ∧ (runCLI ["token", "bogus"]).otype = "success"
      ∧ (runCLI ["token", "bogus"]).exited = none) :=
  ⟨c3_unknown_subcommand.1 "bogus" (by decide) (by decide),
   c3_unknown_subcommand.2.2.2.1 "bogus" (by decide) (by decide),
   c3_unknown_subcommand.2.2.2.2 "token" "bogus" (by decide) (by decide)
     (by decide) (by decide) (by decide)⟩

theorem getLast?_cons_cons_append {α : Type} (a b : α) (l : List α) (t : α) :
    (a :: b :: (l ++ [t])).getLast? = some t := by
  have h : a :: b :: (l ++ [t]) = (a :: b :: l) ++ [t] := by simp
  rw [h, List.getLast?_concat]

/-- Claim C8 could not hold as stated: a `null` record makes
`Object.keys(r)` throw, so a 60-record sequence of nulls renders nothing at
all (no trailing omitted-rows line) — the source throws a TypeError
instead. -/
theorem c8_counterexample :
    extractRecords (vArr (List.replicate 60 vNull)) = List.replicate 60 vNull
  ∧ (List.replicate 60 (vNull)).length = 60
  ∧ formatTableE (vArr (List.replicate 60 vNull))
      = .error "Cannot convert undefined or null to object" := ⟨rfl, rfl, rfl⟩

/-- Claim C8 (amended): whenever `formatTable` renders (that is, no record is
`null`/`undefined`, which make it throw), it renders at most 8 columns and
at most 50 data rows; when the extracted sequence has more than 50 records
the rendered lines end with a line reporting exactly `n - 50` omitted rows;
and when the extraction yields zero records the result is the literal string
`'No data'` (unconditionally). -/
theorem c8_formatTable_bounds :
    (∀ data, extractRecords data = [] → formatTableE data = .ok "No data")
  ∧ (∀ records cols, tableColumns records = .ok cols → cols.length ≤ 8)
  ∧ (∀ records cols widths rows, tableRowsE records cols widths = .ok rows →
      rows.length ≤ 50)
  ∧ (∀ records lines, 50 < records.length →
      formatTableLinesE records = .ok lines →
      lines.getLast?
        = some ("... and " ++ Nat.repr (records.length - 50) ++ " more rows")) := by
  refine ⟨?_, ?_, ?_, ?_⟩
  · intro data h
    simp [formatTableE, h]
  · intro records cols h
    simp only [tableColumns] at h
    cases hm : mapME objKeys records with
    | error e => rw [hm] at h; simp at h
    | ok ks =>
        rw [hm] at h
        simp only [Except.ok.injEq] at h
        rw [← h]
        simp [List.length_take]
  · intro records cols widths rows h
    have hlen := mapME_ok_length _ _ _ h
    rw [hlen, List.length_take]
    exact min_le_left _ _
  · intro records lines h50 hok
    cases htc : tableColumns records with
    | error e => simp [formatTableLinesE, htc] at hok
    | ok cols =>
      cases hw : mapME (colWidthE records) cols with
      | error e => simp [formatTableLinesE, htc, hw] at hok
      | ok widths =>
        cases hr : tableRowsE records cols widths with
        | error e => simp [formatTableLinesE, htc, hw, hr] at hok
        | ok rows =>
            simp only [formatTableLinesE, htc, hw, hr, h50, if_true,
              gt_iff_lt, Except.ok.injEq] at hok
            subst hok
            exact getLast?_cons_cons_append _ _ _ _

set_option maxRecDepth 8000 in
/-- Witness for C8 at concrete tables (including a 51-record one whose
rendering ends with the omitted-row line). -/
theorem c8_formatTable_bounds_witness :
    formatTableE (vArr []) = .ok "No data"
  ∧ (["a"] : List String).length ≤ 8
  ∧ (["1"] : List String).length ≤ 50
  ∧ (["id", "──"] ++ List.replicate 50 "7 "
      ++ ["... and 1 more rows"]).getLast?
      = some ("... and "
          ++ Nat.repr ((List.replicate 51 (vObj [("id", vStr "7")])).length - 50)
          ++ " more rows") :=
  ⟨c8_formatTable_bounds.1 (vArr []) rfl,
   c8_formatTable_bounds.2.1 [vObj [("a", vInt 1)]] ["a"] rfl,
   c8_formatTable_bounds.2.2.1 [vObj [("a", vInt 1)]] ["a"] [1] ["1"] rfl,
   c8_formatTable_bounds.2.2.2 (List.replicate 51 (vObj [("id", vStr "7")]))
     (["id", "──"] ++ List.replicate 50 "7 " ++ ["... and 1 more rows"])
     (by simp) rfl⟩
